import Mathlib

/-!
# Vulgine: device selection and swapchain negotiation

A shallow embedding of `src/vulgine/vg_devices.hpp`,
`src/vulgine/vg_swapchain.hpp` and the layer check of
`src/vulgine/vg_instance.hpp`.

Conventions of the embedding:

* `uint32_t` values are natural numbers; where the source does arithmetic or a
  conversion on them the wrap-around modulo `2 ^ 32` is written out.
* `VkBool32` is a natural number, tested the way C++ tests it (non-zero).
* A physical-device handle is modelled by the record of everything the Vulkan
  driver answers for that handle (against the instance's presentation
  surface); `VK_NULL_HANDLE` is `none`. The handles of the swapchain object
  are numbers, `VK_NULL_HANDLE` being 0.
* `std::optional<uint32_t>` is `Option Nat`, `std::vector` is `List`,
  `std::set` is `Finset`.
* `exit(n)`, a thrown `std::bad_optional_access`, an out-of-range
  `operator[]` and control flowing off the end of a function declared to
  return `int` (undefined behaviour: the caller is not returned to in a
  defined way) are explicit abnormal outcomes.
-/

namespace vg

/-! ## Vulkan constants used by the source (values of the Vulkan headers) -/

def UINT32_MAX : Nat := 4294967295

def VK_QUEUE_GRAPHICS_BIT : Nat := 1

def VK_KHR_SWAPCHAIN_EXTENSION_NAME : String := "VK_KHR_swapchain"

def VK_FORMAT_R8G8B8A8_UNORM : Nat := 37
def VK_FORMAT_R8G8B8A8_SRGB : Nat := 43
def VK_FORMAT_B8G8R8A8_SRGB : Nat := 50
def VK_COLOR_SPACE_SRGB_NONLINEAR_KHR : Nat := 0

def VK_PRESENT_MODE_IMMEDIATE_KHR : Nat := 0
def VK_PRESENT_MODE_MAILBOX_KHR : Nat := 1
def VK_PRESENT_MODE_FIFO_KHR : Nat := 2

def VK_SHARING_MODE_EXCLUSIVE : Nat := 0
def VK_SHARING_MODE_CONCURRENT : Nat := 1

def VK_IMAGE_USAGE_COLOR_ATTACHMENT_BIT : Nat := 16
def VK_COMPOSITE_ALPHA_OPAQUE_BIT_KHR : Nat := 1
def VK_TRUE : Nat := 1
def VK_FALSE : Nat := 0

/-- Conversion `static_cast<uint32_t>(x)` of a signed integer. -/
def toUint32 (x : Int) : Nat := (x % 4294967296).toNat

/-- Addition of two `uint32_t` values. -/
def addUint32 (a b : Nat) : Nat := (a + b) % 4294967296

/-! ## Data model (`vg_devices.hpp`, lines 14-31, and the Vulkan records) -/

/-- The required device extensions (`vg_devices.hpp`, lines 14-16). -/
def deviceExtensions : List String := [VK_KHR_SWAPCHAIN_EXTENSION_NAME]

structure QueueFamilyIndices where
  graphicsFamily : Option Nat
  presentFamily : Option Nat
  deriving DecidableEq, Repr

/-- The method `QueueFamilyIndices::isComplete`. -/
def QueueFamilyIndices.isComplete (q : QueueFamilyIndices) : Bool :=
  q.graphicsFamily.isSome && q.presentFamily.isSome

structure VkQueueFamilyProperties where
  queueFlags : Nat
  queueCount : Nat
  deriving DecidableEq, Repr

structure VkExtensionProperties where
  extensionName : String
  specVersion : Nat
  deriving DecidableEq, Repr

structure VkExtent2D where
  width : Nat
  height : Nat
  deriving DecidableEq, Repr

structure VkSurfaceFormatKHR where
  format : Nat
  colorSpace : Nat
  deriving DecidableEq, Repr

structure VkSurfaceCapabilitiesKHR where
  minImageCount : Nat
  maxImageCount : Nat
  currentExtent : VkExtent2D
  minImageExtent : VkExtent2D
  maxImageExtent : VkExtent2D
  currentTransform : Nat
  deriving DecidableEq, Repr

structure VkPhysicalDeviceFeatures where
  samplerAnisotropy : Nat
  deriving DecidableEq, Repr

structure SwapchainSupportDetails where
  capabilities : VkSurfaceCapabilitiesKHR
  formats : List VkSurfaceFormatKHR
  presentModes : List Nat
  deriving DecidableEq, Repr

/-- What the driver answers for one `VkPhysicalDevice` handle, the surface
queries being those against the instance's `presentSurface`. -/
structure PhysicalDevice where
  /-- `vkGetPhysicalDeviceQueueFamilyProperties` -/
  familyProp : List VkQueueFamilyProperties
  /-- `vkGetPhysicalDeviceSurfaceSupportKHR`, by queue-family index (a `VkBool32`) -/
  surfaceSupport : Nat → Nat
  /-- `vkEnumerateDeviceExtensionProperties` -/
  extProp : List VkExtensionProperties
  /-- `vkGetPhysicalDeviceSurfaceCapabilitiesKHR` -/
  surfaceCapabilities : VkSurfaceCapabilitiesKHR
  /-- `vkGetPhysicalDeviceSurfaceFormatsKHR` -/
  surfaceFormats : List VkSurfaceFormatKHR
  /-- `vkGetPhysicalDeviceSurfacePresentModesKHR` -/
  surfacePresentModes : List Nat
  /-- `vkGetPhysicalDeviceFeatures` -/
  features : VkPhysicalDeviceFeatures

/-- Abnormal ends of a member function: `exit(code)`, a thrown
`std::bad_optional_access`, an out-of-range `operator[]`, and control flowing
off the end of a function declared to return a value, which has no `return`
statement to take (undefined behaviour). -/
inductive Abort where
  | exit (code : Nat)
  | bad_optional_access
  | out_of_range
  | flows_off_end
  deriving DecidableEq, Repr

/-! ## Queue-family resolution (`vg_devices.hpp`, lines 68-87 and 224-243) -/

/-- The body of the range-for loop over `familyProp`, the same text in
`isDeviceSuitable` (lines 68-87) and in `findQueueFamily` (lines 224-243).
The state is the loop counter `i` and `indices`; the result is the state on
leaving the loop (after `break` the counter is not incremented). -/
def queueFamilyLoop (surfaceSupport : Nat → Nat) :
    List VkQueueFamilyProperties → Nat → QueueFamilyIndices → QueueFamilyIndices × Nat
  | [], i, indices => (indices, i)
  | fam :: rest, i, indices =>
    let presentSupported := surfaceSupport i
    let indices :=
      if fam.queueFlags &&& VK_QUEUE_GRAPHICS_BIT ≠ 0 then
        { indices with graphicsFamily := some i }
      else indices
    let indices :=
      if presentSupported ≠ 0 then { indices with presentFamily := some i } else indices
    if indices.isComplete then (indices, i)
    else queueFamilyLoop surfaceSupport rest (i + 1) indices

/-- The method `Vg_Device::findQueueFamily` (lines 215-246), on the selected device. -/
def findQueueFamily (physicalDevice : PhysicalDevice) : QueueFamilyIndices :=
  (queueFamilyLoop physicalDevice.surfaceSupport physicalDevice.familyProp 0
    { graphicsFamily := none, presentFamily := none }).1

/-! ## Extension support (`vg_devices.hpp`, lines 43-57 and 89-101) -/

/-- The loop `for (e : extProp) reqs.erase(e.extensionName)` on a `std::set`. -/
def eraseAdvertised (reqs : Finset String) (extProp : List VkExtensionProperties) :
    Finset String :=
  extProp.foldl (fun reqs e => reqs.erase e.extensionName) reqs

/-- The method `Vg_Device::checkDeviceExtensionSupport` (lines 43-57). -/
def checkDeviceExtensionSupport (physicalDevice : PhysicalDevice) : Bool :=
  let extProp := physicalDevice.extProp
  let reqs : Finset String := deviceExtensions.toFinset
  let reqs := eraseAdvertised reqs extProp
  decide (reqs = ∅)

/-- The method `Vg_Device::querySwapchainSupport` (lines 253-276); the block at
lines 106-125 of `isDeviceSuitable` is the same text. -/
def querySwapchainSupport (physicalDevice : PhysicalDevice) : SwapchainSupportDetails :=
  let count := physicalDevice.surfaceFormats.length
  let formats := if count ≠ 0 then physicalDevice.surfaceFormats else []
  let count := physicalDevice.surfacePresentModes.length
  let presentModes := if count ≠ 0 then physicalDevice.surfacePresentModes else []
  { capabilities := physicalDevice.surfaceCapabilities
    formats := formats
    presentModes := presentModes }

/-! ## Suitability (`vg_devices.hpp`, lines 59-134) -/

/-- The value of `indices` after the scan at lines 60-87 of `isDeviceSuitable`. -/
def isDeviceSuitable.indices (pd : PhysicalDevice) : QueueFamilyIndices :=
  (queueFamilyLoop pd.surfaceSupport pd.familyProp 0
    { graphicsFamily := none, presentFamily := none }).1

/-- The value of `extensionSupported` at line 101 of `isDeviceSuitable`. -/
def isDeviceSuitable.extensionSupported (pd : PhysicalDevice) : Bool :=
  let extProp := pd.extProp
  let reqs : Finset String := deviceExtensions.toFinset
  let reqs := eraseAdvertised reqs extProp
  decide (reqs = ∅)

/-- The value of `swapchainAdequate` after lines 103-128 of `isDeviceSuitable`. -/
def isDeviceSuitable.swapchainAdequate (pd : PhysicalDevice) : Bool :=
  if isDeviceSuitable.extensionSupported pd then
    let details := querySwapchainSupport pd
    !details.formats.isEmpty && !details.presentModes.isEmpty
  else false

/-- The method `Vg_Device::isDeviceSuitable` (lines 59-134). -/
def isDeviceSuitable (pd : PhysicalDevice) : Bool :=
  let indices := isDeviceSuitable.indices pd
  let extensionSupported := isDeviceSuitable.extensionSupported pd
  let swapchainAdequate := isDeviceSuitable.swapchainAdequate pd
  let features := pd.features
  indices.isComplete && extensionSupported && swapchainAdequate
    && decide (features.samplerAnisotropy ≠ 0)

/-! ## Reading the driver's answers by index -/

/-- Family `j` of the list offers graphics capability. -/
def offersGraphics (fams : List VkQueueFamilyProperties) (j : Nat) : Bool :=
  match fams[j]? with
  | some fam => decide (fam.queueFlags &&& VK_QUEUE_GRAPHICS_BIT ≠ 0)
  | none => false

/-- Family `j` of the list reports presentation support against the surface. -/
def supportsPresent (sup : Nat → Nat) (fams : List VkQueueFamilyProperties) (j : Nat) : Bool :=
  decide (j < fams.length) && decide (sup j ≠ 0)

/-- Among the first `m` families there is one offering graphics and one
supporting presentation: both roles are known once `m` families are examined. -/
def bothKnown (sup : Nat → Nat) (fams : List VkQueueFamilyProperties) (m : Nat) : Prop :=
  (∃ g, g < m ∧ offersGraphics fams g = true) ∧ (∃ p, p < m ∧ supportsPresent sup fams p = true)

/-- The two assignments of the loop body, before the `isComplete` test. -/
def queueFamilyLoop.update (sup : Nat → Nat) (fam : VkQueueFamilyProperties) (i : Nat)
    (indices : QueueFamilyIndices) : QueueFamilyIndices :=
  let indices :=
    if fam.queueFlags &&& VK_QUEUE_GRAPHICS_BIT ≠ 0 then
      { indices with graphicsFamily := some i }
    else indices
  if sup i ≠ 0 then { indices with presentFamily := some i } else indices

/-- The value of `indices` after `m` passes of the loop body when no `break`
is taken (a device of the proofs, not a function of the source). -/
def scanState (sup : Nat → Nat) (fams : List VkQueueFamilyProperties) : Nat → QueueFamilyIndices
  | 0 => { graphicsFamily := none, presentFamily := none }
  | m + 1 =>
    match fams[m]? with
    | some fam => queueFamilyLoop.update sup fam m (scanState sup fams m)
    | none => scanState sup fams m

/-! ## Device selection (`vg_devices.hpp`, lines 143-208) -/

/-- The validation layers (`vg_instance.hpp`, lines 14-16). -/
def validationLayers : List String := ["VK_LAYER_KHRONOS_validation"]

/-- What `Vg_Device` reads of the instance: the handles that
`vkEnumeratePhysicalDevices` lists for it, in enumeration order. -/
structure Instance where
  physicalDevices : List PhysicalDevice

structure VkDeviceQueueCreateInfo where
  queueFamilyIndex : Nat
  queueCount : Nat
  pQueuePriorities : List Rat
  deriving DecidableEq

structure VkDeviceCreateInfo where
  pQueueCreateInfos : List VkDeviceQueueCreateInfo
  pEnabledFeatures : VkPhysicalDeviceFeatures
  ppEnabledExtensionNames : List String
  ppEnabledLayerNames : List String
  deriving DecidableEq

/-- A queue handle as `vkGetDeviceQueue` hands it out: device, family, index. -/
structure VkQueue where
  device : Nat
  queueFamilyIndex : Nat
  queueIndex : Nat
  deriving DecidableEq, Repr

/-- The data members of `Vg_Device` (lines 35-41). A member without an
initialiser is `none` until it is assigned. -/
structure Vg_Device where
  physicalDevice : Option PhysicalDevice
  logicalDevice : Option Nat
  presentQueue : Option VkQueue
  graphicsQueue : Option VkQueue
  _pInstance : Option Instance

/-- A freshly constructed `Vg_Device`: `physicalDevice = VK_NULL_HANDLE`. -/
def Vg_Device.fresh : Vg_Device :=
  { physicalDevice := none
    logicalDevice := none
    presentQueue := none
    graphicsQueue := none
    _pInstance := none }

/-- The method `Vg_Device::CreateDevices` (lines 143-208). The parameters
`enableValidationLayers` (a compile-time constant of `vg_instance.hpp`) and
`vkCreateDevice` (the driver: the new device handle, or `none` for a result other
than `VK_SUCCESS`) are those of the environment. The result is the object as the
body leaves it together with the way the body ended. The function is declared
`int` and its body has no `return` statement: when the body is run to its last
line the end is `flows_off_end`, never a normal return. -/
def CreateDevices (enableValidationLayers : Bool)
    (vkCreateDevice : PhysicalDevice → VkDeviceCreateInfo → Option Nat)
    (self : Vg_Device) (pInstance : Instance) : Vg_Device × Except Abort Unit :=
  let self := { self with _pInstance := some pInstance }
  let physicalDevices := pInstance.physicalDevices
  let self :=
    match physicalDevices.find? isDeviceSuitable with
    | some _pd__ => { self with physicalDevice := some _pd__ }
    | none => self
  match self.physicalDevice with
  | none => (self, .error (.exit 5))
  | some physicalDevice =>
    let indices := findQueueFamily physicalDevice
    match indices.graphicsFamily, indices.presentFamily with
    | some graphicsFamily, some presentFamily =>
      let uniqueQueueFamilies : Finset Nat := {graphicsFamily, presentFamily}
      let queueInfos := (uniqueQueueFamilies.sort (· ≤ ·)).map fun queueFamily =>
        ({ queueFamilyIndex := queueFamily, queueCount := 1, pQueuePriorities := [1] } :
          VkDeviceQueueCreateInfo)
      let deviceFeatures : VkPhysicalDeviceFeatures := { samplerAnisotropy := VK_TRUE }
      let deviceInfo : VkDeviceCreateInfo :=
        { pQueueCreateInfos := queueInfos
          pEnabledFeatures := deviceFeatures
          ppEnabledExtensionNames := deviceExtensions
          ppEnabledLayerNames := if enableValidationLayers then validationLayers else [] }
      match vkCreateDevice physicalDevice deviceInfo with
      | none => (self, .error (.exit 6))
      | some logicalDevice =>
        ({ self with
            logicalDevice := some logicalDevice
            graphicsQueue := some ⟨logicalDevice, graphicsFamily, 0⟩
            presentQueue := some ⟨logicalDevice, presentFamily, 0⟩ },
          .error .flows_off_end)
    | _, _ => (self, .error .bad_optional_access)

/-! ## Swapchain negotiation (`vg_swapchain.hpp`, lines 29-149) -/

/-- The function `std::clamp(v, lo, hi)` of `<algorithm>`, as libstdc++ computes
it: `std::min(std::max(v, lo), hi)`. The C++ standard defines the result only
for `lo <= hi`; for `hi < lo` the behaviour is undefined, and the value there is
the one libstdc++ gives. -/
def std.clamp (v lo hi : Nat) : Nat :=
  min (max v lo) hi

/-- The method `Vg_Swapchain::chooseFormat` (lines 29-37); `formats[0]` on an
empty vector is the abnormal outcome `out_of_range`. -/
def chooseFormat (formats : List VkSurfaceFormatKHR) : Except Abort VkSurfaceFormatKHR :=
  match formats.find? (fun format =>
      format.format == VK_FORMAT_B8G8R8A8_SRGB &&
        format.colorSpace == VK_COLOR_SPACE_SRGB_NONLINEAR_KHR) with
  | some format => .ok format
  | none =>
    match formats[0]? with
    | some format => .ok format
    | none => .error .out_of_range

/-- The method `Vg_Swapchain::choosePresentMode` (lines 39-47). -/
def choosePresentMode (presentModes : List Nat) : Nat :=
  match presentModes.find? (fun presentMode => presentMode == VK_PRESENT_MODE_MAILBOX_KHR) with
  | some presentMode => presentMode
  | none => VK_PRESENT_MODE_FIFO_KHR

/-- The method `Vg_Swapchain::chooseExtent` (lines 49-64); `width` and `height`
are the signed `int` arguments. -/
def chooseExtent (capabilities : VkSurfaceCapabilitiesKHR) (width height : Int) : VkExtent2D :=
  if capabilities.currentExtent.width ≠ UINT32_MAX then
    capabilities.currentExtent
  else
    let extent : VkExtent2D := { width := toUint32 width, height := toUint32 height }
    let extent := { extent with
      width := std.clamp extent.width capabilities.minImageExtent.width
        capabilities.maxImageExtent.width }
    let extent := { extent with
      height := std.clamp extent.height capabilities.minImageExtent.height
        capabilities.maxImageExtent.height }
    extent

/-- The fields of `VkSwapchainCreateInfoKHR` that `CreateSwapchain` sets, but for
the `surface` handle: the answers of a `PhysicalDevice` are already those
against that surface. -/
structure VkSwapchainCreateInfoKHR where
  minImageCount : Nat
  imageFormat : Nat
  imageColorSpace : Nat
  imageExtent : VkExtent2D
  imageArrayLayers : Nat
  imageUsage : Nat
  imageSharingMode : Nat
  queueFamilyIndexCount : Nat
  /-- the array the pointer refers to, `none` for a null pointer -/
  pQueueFamilyIndices : Option (List Nat)
  preTransform : Nat
  compositeAlpha : Nat
  presentMode : Nat
  clipped : Nat
  oldSwapchain : Option Nat
  deriving DecidableEq, Repr

/-- The value of `imagesCount` after lines 98-102 of `CreateSwapchain`. -/
def CreateSwapchain.imagesCount (details : SwapchainSupportDetails) : Nat :=
  let imagesCount := addUint32 details.capabilities.minImageCount 1
  if details.capabilities.maxImageCount > 0 ∧ details.capabilities.maxImageCount < imagesCount then
    details.capabilities.maxImageCount
  else imagesCount

/-- The structure `swapchainInfo` that `CreateSwapchain` (lines 89-134) hands to
`vkCreateSwapchainKHR`, for the selected device `pd` of `_pDevice`. -/
def CreateSwapchain.swapchainInfo (pd : PhysicalDevice) (width height : Int) :
    Except Abort VkSwapchainCreateInfoKHR := do
  let details := querySwapchainSupport pd
  let swapchainFormat ← chooseFormat details.formats
  let swapchainPresentMode := choosePresentMode details.presentModes
  let swapchainExtent := chooseExtent details.capabilities width height
  let imagesCount := CreateSwapchain.imagesCount details
  let indices := findQueueFamily pd
  match indices.graphicsFamily, indices.presentFamily with
  | some graphicsFamily, some presentFamily =>
    let queueFamIndices := [graphicsFamily, presentFamily]
    let sharing : Nat × Nat × Option (List Nat) :=
      if indices.graphicsFamily ≠ indices.presentFamily then
        (VK_SHARING_MODE_CONCURRENT, 1, some queueFamIndices)
      else (VK_SHARING_MODE_EXCLUSIVE, 0, none)
    pure
      { minImageCount := imagesCount
        imageFormat := swapchainFormat.format
        imageColorSpace := swapchainFormat.colorSpace
        imageExtent := swapchainExtent
        imageArrayLayers := 1
        imageUsage := VK_IMAGE_USAGE_COLOR_ATTACHMENT_BIT
        imageSharingMode := sharing.1
        queueFamilyIndexCount := sharing.2.1
        pQueueFamilyIndices := sharing.2.2
        preTransform := details.capabilities.currentTransform
        compositeAlpha := VK_COMPOSITE_ALPHA_OPAQUE_BIT_KHR
        presentMode := swapchainPresentMode
        clipped := VK_TRUE
        oldSwapchain := none }
  | _, _ => throw .bad_optional_access

/-- The queue families a create info lists for sharing: the first
`queueFamilyIndexCount` entries of the array `pQueueFamilyIndices` points to. -/
def VkSwapchainCreateInfoKHR.listedFamilies (info : VkSwapchainCreateInfoKHR) : List Nat :=
  (info.pQueueFamilyIndices.getD []).take info.queueFamilyIndexCount

/-- A device whose family 2 is the only one offering graphics and whose family 5
is the only one that can present. -/
def deviceGraphics2Present5 : PhysicalDevice :=
  { familyProp := [⟨4, 1⟩, ⟨4, 1⟩, ⟨1, 1⟩, ⟨4, 1⟩, ⟨2, 1⟩, ⟨4, 1⟩]
    surfaceSupport := fun j => if j = 5 then 1 else 0
    extProp := [⟨"VK_KHR_swapchain", 70⟩]
    surfaceCapabilities := ⟨2, 0, ⟨800, 600⟩, ⟨1, 1⟩, ⟨4096, 4096⟩, 1⟩
    surfaceFormats := [⟨VK_FORMAT_R8G8B8A8_SRGB, VK_COLOR_SPACE_SRGB_NONLINEAR_KHR⟩]
    surfacePresentModes := [VK_PRESENT_MODE_FIFO_KHR]
    features := ⟨1⟩ }

/-- The surface format `chooseFormat` prefers (line 31). -/
def preferredFormat : VkSurfaceFormatKHR :=
  { format := VK_FORMAT_B8G8R8A8_SRGB, colorSpace := VK_COLOR_SPACE_SRGB_NONLINEAR_KHR }

/-- The value of the loop counter `i` when `findQueueFamily` leaves its loop. -/
def findQueueFamily.i (physicalDevice : PhysicalDevice) : Nat :=
  (queueFamilyLoop physicalDevice.surfaceSupport physicalDevice.familyProp 0
    { graphicsFamily := none, presentFamily := none }).2

/-- A device with three queue families: 0 and 1 offer graphics only, 2 offers
transfer only and is the only one that can present. -/
def deviceTwoGraphicsFamilies : PhysicalDevice :=
  { familyProp := [⟨1, 1⟩, ⟨1, 1⟩, ⟨4, 1⟩]
    surfaceSupport := fun j => if j = 2 then 1 else 0
    extProp := [⟨"VK_KHR_swapchain", 70⟩]
    surfaceCapabilities := ⟨2, 0, ⟨800, 600⟩, ⟨1, 1⟩, ⟨4096, 4096⟩, 1⟩
    surfaceFormats := [⟨50, 0⟩]
    surfacePresentModes := [2]
    features := ⟨1⟩ }

/-- The device `deviceTwoGraphicsFamilies` with further families appended after
index 2 and different presentation answers beyond index 2. -/
def deviceTwoGraphicsFamiliesExtended : PhysicalDevice :=
  { deviceTwoGraphicsFamilies with
    familyProp := [⟨1, 1⟩, ⟨1, 1⟩, ⟨4, 1⟩, ⟨3, 2⟩, ⟨1, 1⟩]
    surfaceSupport := fun j => if 2 ≤ j then 1 else 0 }

/-- The extension names a device advertises. -/
def advertisedNames (pd : PhysicalDevice) : List String :=
  pd.extProp.map (fun e => e.extensionName)

/-- A device that advertises two extensions, neither of them the swapchain one. -/
def deviceWithoutSwapchainExtension : PhysicalDevice :=
  { deviceTwoGraphicsFamilies with
    extProp := [⟨"VK_KHR_maintenance1", 2⟩, ⟨"VK_EXT_debug_marker", 4⟩] }

/-! ## Depth format (`vg_swapchain.hpp`, lines 66-86) -/

def VK_NULL_HANDLE : Nat := 0

def VK_FORMAT_D32_SFLOAT : Nat := 126
def VK_FORMAT_D24_UNORM_S8_UINT : Nat := 129
def VK_FORMAT_D32_SFLOAT_S8_UINT : Nat := 130

def VK_IMAGE_TILING_OPTIMAL : Nat := 0
def VK_IMAGE_TILING_LINEAR : Nat := 1

def VK_FORMAT_FEATURE_DEPTH_STENCIL_ATTACHMENT_BIT : Nat := 512

structure VkFormatProperties where
  linearTilingFeatures : Nat
  optimalTilingFeatures : Nat
  bufferFeatures : Nat
  deriving DecidableEq, Repr

/-- The method `Vg_Swapchain::findSupportedFormat` (lines 66-82). The parameter
`vkGetPhysicalDeviceFormatProperties` is the driver's answer, by format, for the
physical device of `pDevice`. -/
def findSupportedFormat (vkGetPhysicalDeviceFormatProperties : Nat → VkFormatProperties) :
    List Nat → Nat → Nat → Except Abort Nat
  | [], _, _ => .error (.exit 10)
  | format :: rest, tiling, features =>
    let props := vkGetPhysicalDeviceFormatProperties format
    if tiling = VK_IMAGE_TILING_LINEAR ∧ (props.linearTilingFeatures &&& features) = features then
      .ok format
    else if tiling = VK_IMAGE_TILING_OPTIMAL ∧
        (props.optimalTilingFeatures &&& features) = features then
      .ok format
    else findSupportedFormat vkGetPhysicalDeviceFormatProperties rest tiling features

/-- The method `Vg_Swapchain::findDepthFormat` (lines 84-86). -/
def findDepthFormat (vkGetPhysicalDeviceFormatProperties : Nat → VkFormatProperties) :
    Except Abort Nat :=
  findSupportedFormat vkGetPhysicalDeviceFormatProperties
    [VK_FORMAT_D32_SFLOAT, VK_FORMAT_D32_SFLOAT_S8_UINT, VK_FORMAT_D24_UNORM_S8_UINT]
    VK_IMAGE_TILING_OPTIMAL VK_FORMAT_FEATURE_DEPTH_STENCIL_ATTACHMENT_BIT

/-- The format's optimal-tiling features include the depth/stencil-attachment
bit (bit 9 of the flag word). -/
def depthAttachmentSupported (vkGetPhysicalDeviceFormatProperties : Nat → VkFormatProperties)
    (format : Nat) : Bool :=
  (vkGetPhysicalDeviceFormatProperties format).optimalTilingFeatures.testBit 9

/-- A driver that supports depth/stencil attachment for no format but
`VK_FORMAT_D24_UNORM_S8_UINT`. -/
def formatPropertiesD24Only : Nat → VkFormatProperties :=
  fun format => if format = VK_FORMAT_D24_UNORM_S8_UINT then ⟨0, 512 + 1, 0⟩ else ⟨512, 1, 0⟩

/-! ## Render pass (`vg_swapchain.hpp`, lines 203-261) -/

def VK_SAMPLE_COUNT_1_BIT : Nat := 1
def VK_ATTACHMENT_LOAD_OP_LOAD : Nat := 0
def VK_ATTACHMENT_LOAD_OP_CLEAR : Nat := 1
def VK_ATTACHMENT_LOAD_OP_DONT_CARE : Nat := 2
def VK_ATTACHMENT_STORE_OP_STORE : Nat := 0
def VK_ATTACHMENT_STORE_OP_DONT_CARE : Nat := 1
def VK_IMAGE_LAYOUT_UNDEFINED : Nat := 0
def VK_IMAGE_LAYOUT_COLOR_ATTACHMENT_OPTIMAL : Nat := 2
def VK_IMAGE_LAYOUT_DEPTH_STENCIL_ATTACHMENT_OPTIMAL : Nat := 3
def VK_IMAGE_LAYOUT_PRESENT_SRC_KHR : Nat := 1000001002
def VK_PIPELINE_BIND_POINT_GRAPHICS : Nat := 0
def VK_SUBPASS_EXTERNAL : Nat := 4294967295
def VK_PIPELINE_STAGE_EARLY_FRAGMENT_TESTS_BIT : Nat := 256
def VK_PIPELINE_STAGE_COLOR_ATTACHMENT_OUTPUT_BIT : Nat := 1024
def VK_ACCESS_COLOR_ATTACHMENT_WRITE_BIT : Nat := 256
def VK_ACCESS_DEPTH_STENCIL_ATTACHMENT_WRITE_BIT : Nat := 1024

structure VkAttachmentDescription where
  format : Nat
  samples : Nat
  loadOp : Nat
  storeOp : Nat
  stencilLoadOp : Nat
  stencilStoreOp : Nat
  initialLayout : Nat
  finalLayout : Nat
  deriving DecidableEq, Repr

structure VkAttachmentReference where
  attachment : Nat
  layout : Nat
  deriving DecidableEq, Repr

structure VkSubpassDescription where
  pipelineBindPoint : Nat
  pColorAttachments : List VkAttachmentReference
  pDepthStencilAttachment : Option VkAttachmentReference
  deriving DecidableEq, Repr

structure VkSubpassDependency where
  srcSubpass : Nat
  dstSubpass : Nat
  srcStageMask : Nat
  srcAccessMask : Nat
  dstStageMask : Nat
  dstAccessMask : Nat
  deriving DecidableEq, Repr

structure VkRenderPassCreateInfo where
  pAttachments : List VkAttachmentDescription
  pSubpasses : List VkSubpassDescription
  pDependencies : List VkSubpassDependency
  deriving DecidableEq, Repr

/-- The all-zero `VkAttachmentDescription` of the value-initialisation `{}`. -/
def VkAttachmentDescription.zero : VkAttachmentDescription :=
  { format := 0
    samples := 0
    loadOp := 0
    storeOp := 0
    stencilLoadOp := 0
    stencilStoreOp := 0
    initialLayout := 0
    finalLayout := 0 }

/-- The structure `renderPassInfo` that `CreateRenderPass` (lines 203-254) builds,
for the member `s_format`, with the names of the source kept apart as the
source writes them. The function declares `depthAttachmentDescriptor{}` (line
214), assigns its `format` (line 215) and puts it into the array (line 246);
lines 216-222 assign the other depth fields to `depthAttachemntDescriptor`, and
line 252 takes the address of `subpass`: neither name is declared by the
function or the class (the function is ill-formed as written), so both objects
are parameters here, and the assignments of lines 216-222 do not reach the
object the array holds. The declared `subpassDescriptor` (lines 232-236) is
built and not referenced by `renderPassInfo`. -/
def CreateRenderPass.renderPassInfo
    (vkGetPhysicalDeviceFormatProperties : Nat → VkFormatProperties) (s_format : Nat)
    (depthAttachemntDescriptor : VkAttachmentDescription) (subpass : VkSubpassDescription) :
    Except Abort VkRenderPassCreateInfo := do
  let colorAttachemntDescriptor : VkAttachmentDescription :=
    { VkAttachmentDescription.zero with
      format := s_format
      samples := VK_SAMPLE_COUNT_1_BIT
      loadOp := VK_ATTACHMENT_LOAD_OP_CLEAR
      storeOp := VK_ATTACHMENT_STORE_OP_STORE
      stencilLoadOp := VK_ATTACHMENT_LOAD_OP_DONT_CARE
      stencilStoreOp := VK_ATTACHMENT_STORE_OP_DONT_CARE
      initialLayout := VK_IMAGE_LAYOUT_UNDEFINED
      finalLayout := VK_IMAGE_LAYOUT_PRESENT_SRC_KHR }
  let depthFormat ← findDepthFormat vkGetPhysicalDeviceFormatProperties
  let depthAttachmentDescriptor : VkAttachmentDescription :=
    { VkAttachmentDescription.zero with format := depthFormat }
  let _depthAttachemntDescriptor : VkAttachmentDescription :=
    { depthAttachemntDescriptor with
      samples := VK_SAMPLE_COUNT_1_BIT
      loadOp := VK_ATTACHMENT_LOAD_OP_CLEAR
      storeOp := VK_ATTACHMENT_STORE_OP_DONT_CARE
      stencilLoadOp := VK_ATTACHMENT_LOAD_OP_DONT_CARE
      stencilStoreOp := VK_ATTACHMENT_STORE_OP_DONT_CARE
      initialLayout := VK_IMAGE_LAYOUT_UNDEFINED
      finalLayout := VK_IMAGE_LAYOUT_DEPTH_STENCIL_ATTACHMENT_OPTIMAL }
  let colorAttachmentReference : VkAttachmentReference :=
    { layout := VK_IMAGE_LAYOUT_COLOR_ATTACHMENT_OPTIMAL, attachment := 0 }
  let depthAttachmentReference : VkAttachmentReference :=
    { layout := VK_IMAGE_LAYOUT_DEPTH_STENCIL_ATTACHMENT_OPTIMAL, attachment := 1 }
  let _subpassDescriptor : VkSubpassDescription :=
    { pipelineBindPoint := VK_PIPELINE_BIND_POINT_GRAPHICS
      pColorAttachments := [colorAttachmentReference]
      pDepthStencilAttachment := some depthAttachmentReference }
  let subpassDependency : VkSubpassDependency :=
    { srcSubpass := VK_SUBPASS_EXTERNAL
      dstSubpass := 0
      srcStageMask :=
        VK_PIPELINE_STAGE_COLOR_ATTACHMENT_OUTPUT_BIT ||| VK_PIPELINE_STAGE_EARLY_FRAGMENT_TESTS_BIT
      srcAccessMask := 0
      dstStageMask :=
        VK_PIPELINE_STAGE_COLOR_ATTACHMENT_OUTPUT_BIT ||| VK_PIPELINE_STAGE_EARLY_FRAGMENT_TESTS_BIT
      dstAccessMask :=
        VK_ACCESS_COLOR_ATTACHMENT_WRITE_BIT ||| VK_ACCESS_DEPTH_STENCIL_ATTACHMENT_WRITE_BIT }
  let attachmentDescriptors := [colorAttachemntDescriptor, depthAttachmentDescriptor]
  pure
    { pAttachments := attachmentDescriptors
      pSubpasses := [subpass]
      pDependencies := [subpassDependency] }

/-- A subpass description with nothing set, standing for whatever object the
undeclared name `subpass` denotes. -/
def subpassUnset : VkSubpassDescription :=
  { pipelineBindPoint := 0
    pColorAttachments := []
    pDepthStencilAttachment := none }

/-! ## Swapchain object (`vg_swapchain.hpp`, lines 14-27 and 89-201) -/

def VK_IMAGE_VIEW_TYPE_2D : Nat := 1
def VK_IMAGE_ASPECT_COLOR_BIT : Nat := 1

/-- The data members of `Vg_Swapchain` (lines 14-27). Handles are numbers,
`VK_NULL_HANDLE` being 0; no member has an initialiser, so the members of a new
object are arbitrary. -/
structure Vg_Swapchain where
  swapchain : Nat
  s_format : Nat
  s_extent : VkExtent2D
  rederPass : Nat
  depthImage : Nat
  depthView : Nat
  depthMemory : Nat
  swapchainFramebuffers : List Nat
  swapchainImages : List Nat
  swapchainImageViews : List Nat
  pDevice : Option PhysicalDevice

/-- The method `Vg_Swapchain::CreateSwapchain` (lines 89-149), `_pDevice` being
given by its selected physical device. The parameters `vkCreateSwapchainKHR`
(the new chain handle, or `none` for a result other than `VK_SUCCESS`) and
`vkGetSwapchainImagesKHR` (the images of a chain) are the driver. The result
is the object as the body leaves it together with the way the body ended. The
function is declared `int` and its body has no `return` statement: when the
body is run to its last line the end is `flows_off_end`, never a normal
return. -/
def CreateSwapchain (vkCreateSwapchainKHR : VkSwapchainCreateInfoKHR → Option Nat)
    (vkGetSwapchainImagesKHR : Nat → List Nat)
    (self : Vg_Swapchain) (_pDevice : PhysicalDevice) (width height : Int) :
    Vg_Swapchain × Except Abort Unit :=
  let self := { self with pDevice := some _pDevice }
  match CreateSwapchain.swapchainInfo _pDevice width height with
  | .error e => (self, .error e)
  | .ok swapchainInfo =>
    match vkCreateSwapchainKHR swapchainInfo with
    | none => (self, .error (.exit 7))
    | some swapchain =>
      let self := { self with swapchain := swapchain }
      let imagesCount := (vkGetSwapchainImagesKHR swapchain).length
      let self := { self with
        swapchainImages := (vkGetSwapchainImagesKHR swapchain).take imagesCount }
      ({ self with
          s_format := swapchainInfo.imageFormat
          s_extent := swapchainInfo.imageExtent }, .error .flows_off_end)

/-- The calls that destroy or wait, in the order they are made. -/
inductive VkCall where
  | vkDeviceWaitIdle
  | vkDestroyImageView (imageView : Nat)
  | vkDestroyImage (image : Nat)
  | vkFreeMemory (memory : Nat)
  | vkDestroyFramebuffer (framebuffer : Nat)
  | vkDestroySwapchainKHR (swapchain : Nat)
  deriving DecidableEq, Repr

/-- The method `Vg_Swapchain::CleanSwapchain` (lines 179-193): the object after
the call (no member is assigned) and the calls made. -/
def CleanSwapchain (self : Vg_Swapchain) : Vg_Swapchain × List VkCall :=
  (self,
    [VkCall.vkDestroyImageView self.depthView, VkCall.vkDestroyImage self.depthImage,
      VkCall.vkFreeMemory self.depthMemory]
    ++ self.swapchainFramebuffers.map VkCall.vkDestroyFramebuffer
    ++ self.swapchainImageViews.map VkCall.vkDestroyImageView
    ++ [VkCall.vkDestroySwapchainKHR self.swapchain])

/-- The method `Vg_Swapchain::RecreateSwapchain` (lines 151-155). -/
def RecreateSwapchain (self : Vg_Swapchain) (_width _height : Int) :
    Vg_Swapchain × List VkCall :=
  let waited := [VkCall.vkDeviceWaitIdle]
  let cleaned := CleanSwapchain self
  (cleaned.1, waited ++ cleaned.2)

structure VkImageSubresourceRange where
  aspectMask : Nat
  baseMipLevel : Nat
  levelCount : Nat
  baseArrayLayer : Nat
  layerCount : Nat
  deriving DecidableEq, Repr

structure VkImageViewCreateInfo where
  image : Nat
  viewType : Nat
  format : Nat
  subresourceRange : VkImageSubresourceRange
  deriving DecidableEq, Repr

/-- The structure `imgViewInfo` of `CreateImageView` (lines 158-166). -/
def CreateImageView.imgViewInfo (image format imageAspectFlags : Nat) : VkImageViewCreateInfo :=
  { image := image
    viewType := VK_IMAGE_VIEW_TYPE_2D
    format := format
    subresourceRange :=
      { aspectMask := imageAspectFlags
        baseMipLevel := 0
        levelCount := 1
        baseArrayLayer := 0
        layerCount := 1 } }

/-- The method `Vg_Swapchain::CreateImageView` (lines 157-177); the parameter
`vkCreateImageView` is the driver (`none` for a result other than `VK_SUCCESS`). -/
def CreateImageView (vkCreateImageView : VkImageViewCreateInfo → Option Nat)
    (image format imageAspectFlags : Nat) : Except Abort Nat :=
  match vkCreateImageView (CreateImageView.imgViewInfo image format imageAspectFlags) with
  | some imageView => .ok imageView
  | none => .error (.exit 8)

/-- The call `v.resize(n)` on a `std::vector` of handles. -/
def std.resize (v : List Nat) (n : Nat) : List Nat :=
  v.take n ++ List.replicate (n - v.length) VK_NULL_HANDLE

/-- The loop of `CreateImageViews` (lines 198-200) from index `i` on, `images`
being the entries `swapchainImages[i]`, `swapchainImages[i + 1]`, ... -/
def CreateImageViews.loop (vkCreateImageView : VkImageViewCreateInfo → Option Nat)
    (s_format : Nat) : List Nat → Nat → List Nat → List Nat × Except Abort Unit
  | [], _, swapchainImageViews => (swapchainImageViews, .ok ())
  | image :: images, i, swapchainImageViews =>
    match CreateImageView vkCreateImageView image s_format VK_IMAGE_ASPECT_COLOR_BIT with
    | .error e => (swapchainImageViews, .error e)
    | .ok imageView =>
      CreateImageViews.loop vkCreateImageView s_format images (i + 1)
        (swapchainImageViews.set i imageView)

/-- The method `Vg_Swapchain::CreateImageViews` (lines 195-201). -/
def CreateImageViews (vkCreateImageView : VkImageViewCreateInfo → Option Nat)
    (self : Vg_Swapchain) : Vg_Swapchain × Except Abort Unit :=
  let self := { self with
    swapchainImageViews := std.resize self.swapchainImageViews self.swapchainImages.length }
  let done := CreateImageViews.loop vkCreateImageView self.s_format self.swapchainImages 0
    self.swapchainImageViews
  ({ self with swapchainImageViews := done.1 }, done.2)

/-- A surface that leaves the extent to the swapchain (current extent
`0xFFFFFFFF`), on the device `deviceGraphics2Present5`. -/
def deviceUndefinedExtent : PhysicalDevice :=
  { deviceGraphics2Present5 with
    surfaceCapabilities :=
      ⟨2, 0, ⟨4294967295, 4294967295⟩, ⟨1, 1⟩, ⟨4096, 4096⟩, 1⟩ }

/-- A swapchain object with arbitrary members, before any call. -/
def swapchainObject : Vg_Swapchain :=
  { swapchain := 0
    s_format := 0
    s_extent := ⟨0, 0⟩
    rederPass := 0
    depthImage := 21
    depthView := 22
    depthMemory := 23
    swapchainFramebuffers := [31, 32]
    swapchainImages := []
    swapchainImageViews := []
    pDevice := none }

/-- A driver that creates chain 100 for any create info. -/
def driverCreateSwapchain : VkSwapchainCreateInfoKHR → Option Nat := fun _ => some 100

/-- A driver that realizes four images for any chain. -/
def driverSwapchainImages : Nat → List Nat := fun _ => [201, 202, 203, 204]

structure VkLayerProperties where
  layerName : String
  specVersion : Nat
  deriving DecidableEq, Repr

/-- The comparison of `strcmp`, character by character. -/
def strcmp.go : List Char → List Char → Int
  | [], [] => 0
  | [], _ :: _ => -1
  | _ :: _, [] => 1
  | a :: as, b :: bs =>
    if a = b then strcmp.go as bs else if a.toNat < b.toNat then -1 else 1

/-- The function `strcmp` of `<cstring>`: zero for equal strings, negative or
positive by the first character that differs. -/
def strcmp (a b : String) : Int :=
  strcmp.go a.data b.data

/-- The inner loop of `checkValidationLayerSupport` (lines 59-65): the value of
`layerFound` after it. -/
def checkValidationLayerSupport.layerFound (layerName : String) :
    List VkLayerProperties → Bool
  | [] => false
  | layer :: rest =>
    if strcmp layerName layer.layerName ≠ 0 then true
    else checkValidationLayerSupport.layerFound layerName rest

/-- The outer loop of `checkValidationLayerSupport` (lines 56-70). -/
def checkValidationLayerSupport.loop (layerProp : List VkLayerProperties) : List String → Bool
  | [] => true
  | layerName :: rest =>
    if !checkValidationLayerSupport.layerFound layerName layerProp then false
    else checkValidationLayerSupport.loop layerProp rest

/-- The method `Vg_Instance::checkValidationLayerSupport` (lines 49-73);
`layerProp` is what `vkEnumerateInstanceLayerProperties` lists. -/
def checkValidationLayerSupport (layerProp : List VkLayerProperties) : Bool :=
  checkValidationLayerSupport.loop layerProp validationLayers

/-- The method `Vg_Instance::CreateInstance` (lines 195-249): the value of the
`return` statement taken, `none` when control reaches the end of the body.
The parameters are the environment: the constant `enableValidationLayers`, the
listed layers, whether `vkCreateInstance` gives `VK_SUCCESS`, and whether the
result of `CreateDebugUtilsMessengerEXT` compares equal to `VK_SUCCESS`. -/
def CreateInstance (enableValidationLayers : Bool) (layerProp : List VkLayerProperties)
    (vkCreateInstanceOk : Bool) (debugMessengerOk : Bool) : Option Int :=
  if enableValidationLayers && !checkValidationLayerSupport layerProp then some 1
  else if !vkCreateInstanceOk then some 2
  else if enableValidationLayers && !debugMessengerOk then some 3
  else none

/-- A capability record with undefined current extent whose maximum image
extent is `0xFFFFFFFF` on both axes. -/
def capabilitiesHugeMaxExtent : VkSurfaceCapabilitiesKHR :=
  { minImageCount := 2
    maxImageCount := 0
    currentExtent := ⟨4294967295, 4294967295⟩
    minImageExtent := ⟨1, 1⟩
    maxImageExtent := ⟨4294967295, 4294967295⟩
    currentTransform := 1 }

theorem queueFamilyLoop_cons (sup : Nat → Nat) (fam : VkQueueFamilyProperties)
    (rest : List VkQueueFamilyProperties) (i : Nat) (indices : QueueFamilyIndices) :
    queueFamilyLoop sup (fam :: rest) i indices =
      if (queueFamilyLoop.update sup fam i indices).isComplete then
        (queueFamilyLoop.update sup fam i indices, i)
      else queueFamilyLoop sup rest (i + 1) (queueFamilyLoop.update sup fam i indices) := by
  simp only [queueFamilyLoop, queueFamilyLoop.update]

theorem update_graphicsFamily (sup : Nat → Nat) (fam : VkQueueFamilyProperties) (i : Nat)
    (indices : QueueFamilyIndices) :
    (queueFamilyLoop.update sup fam i indices).graphicsFamily =
      if fam.queueFlags &&& VK_QUEUE_GRAPHICS_BIT ≠ 0 then some i
      else indices.graphicsFamily := by
  unfold queueFamilyLoop.update
  split_ifs <;> rfl

theorem update_presentFamily (sup : Nat → Nat) (fam : VkQueueFamilyProperties) (i : Nat)
    (indices : QueueFamilyIndices) :
    (queueFamilyLoop.update sup fam i indices).presentFamily =
      if sup i ≠ 0 then some i else indices.presentFamily := by
  unfold queueFamilyLoop.update
  split_ifs <;> rfl

theorem scanState_succ_of_get (sup : Nat → Nat) (fams : List VkQueueFamilyProperties) (m : Nat)
    (fam : VkQueueFamilyProperties) (h : fams[m]? = some fam) :
    scanState sup fams (m + 1) = queueFamilyLoop.update sup fam m (scanState sup fams m) := by
  simp only [scanState, h]

theorem scanState_succ_of_none (sup : Nat → Nat) (fams : List VkQueueFamilyProperties) (m : Nat)
    (h : fams[m]? = none) :
    scanState sup fams (m + 1) = scanState sup fams m := by
  simp only [scanState, h]

/-- The loop, started after `m` unbroken passes, ends in the state of `n`
unbroken passes, `n` being the first count after `m` at which the state is
complete, or the number of families when there is none. -/
theorem queueFamilyLoop_eq_scanState (sup : Nat → Nat) (fams : List VkQueueFamilyProperties) :
    ∀ (rest : List VkQueueFamilyProperties) (m : Nat), fams.drop m = rest → m ≤ fams.length →
      ∃ n, m ≤ n ∧ n ≤ fams.length ∧
        (queueFamilyLoop sup rest m (scanState sup fams m)).1 = scanState sup fams n ∧
        (∀ k, m < k → k < n → (scanState sup fams k).isComplete = false) ∧
        ((n = fams.length ∧ (queueFamilyLoop sup rest m (scanState sup fams m)).2 = n ∧
            (m < n → (scanState sup fams n).isComplete = false)) ∨
          (m < n ∧ (scanState sup fams n).isComplete = true ∧
            (queueFamilyLoop sup rest m (scanState sup fams m)).2 + 1 = n)) := by
  intro rest
  induction rest with
  | nil =>
    intro m hdrop hm
    have hlen : fams.length ≤ m := List.drop_eq_nil_iff.mp hdrop
    have hmn : m = fams.length := Nat.le_antisymm hm hlen
    refine ⟨m, Nat.le_refl m, hm, rfl, ?_, Or.inl ⟨hmn, rfl, ?_⟩⟩
    · intro k h1 h2; omega
    · intro h; omega
  | cons fam rest ih =>
    intro m hdrop hm
    have hlt : m < fams.length := by
      by_contra hcon
      have : fams.drop m = [] := List.drop_eq_nil_iff.mpr (Nat.le_of_not_lt hcon)
      rw [this] at hdrop
      exact List.noConfusion hdrop
    have hget : fams[m]? = some fam := by
      have h1 : (fams.drop m)[0]? = some fam := by rw [hdrop]; simp
      rw [List.getElem?_drop] at h1
      simpa using h1
    have hdrop1 : fams.drop (m + 1) = rest := by
      have h1 : (fams.drop m).drop 1 = rest := by rw [hdrop]; rfl
      rw [List.drop_drop] at h1
      exact h1
    have hstep := scanState_succ_of_get sup fams m fam hget
    rw [queueFamilyLoop_cons, ← hstep]
    by_cases hc : (scanState sup fams (m + 1)).isComplete = true
    · rw [if_pos hc]
      refine ⟨m + 1, Nat.le_succ m, hlt, rfl, ?_, Or.inr ⟨Nat.lt_succ_self m, hc, rfl⟩⟩
      intro k h1 h2; omega
    · rw [if_neg hc]
      have hc0 : (scanState sup fams (m + 1)).isComplete = false := by
        simpa using hc
      obtain ⟨n, h1, h2, h3, h4, h5⟩ := ih (m + 1) hdrop1 hlt
      refine ⟨n, by omega, h2, h3, ?_, ?_⟩
      · intro k hk1 hk2
        by_cases hk : k = m + 1
        · rw [hk]; exact hc0
        · exact h4 k (by omega) hk2
      · rcases h5 with ⟨a, b, c⟩ | ⟨a, b, c⟩
        · refine Or.inl ⟨a, b, ?_⟩
          intro _
          by_cases hk : n = m + 1
          · rw [hk]; exact hc0
          · exact c (by omega)
        · exact Or.inr ⟨by omega, b, c⟩

/-- A register that is overwritten with `m` at every step `m` where `p m`
holds contains, after `m` steps, the last such step. -/
theorem lastWrite_eq_some (p : Nat → Bool) (f : Nat → Option Nat) (h0 : f 0 = none)
    (hs : ∀ m, f (m + 1) = if p m = true then some m else f m) (m g : Nat) :
    f m = some g ↔ g < m ∧ p g = true ∧ ∀ j, g < j → j < m → p j = false := by
  induction m with
  | zero => simp [h0]
  | succ m ih =>
    rw [hs m]
    by_cases hp : p m = true
    · rw [if_pos hp]
      constructor
      · intro h
        have hg : m = g := Option.some.inj h
        subst hg
        exact ⟨Nat.lt_succ_self _, hp, fun j h1 h2 => by omega⟩
      · rintro ⟨h1, _, h3⟩
        by_cases hg : g = m
        · rw [hg]
        · have := h3 m (by omega) (Nat.lt_succ_self m)
          rw [hp] at this
          exact absurd this (by decide)
    · rw [if_neg hp, ih]
      have hpf : p m = false := by simpa using hp
      constructor
      · rintro ⟨h1, h2, h3⟩
        refine ⟨by omega, h2, fun j hj1 hj2 => ?_⟩
        by_cases hj : j = m
        · rw [hj]; exact hpf
        · exact h3 j hj1 (by omega)
      · rintro ⟨h1, h2, h3⟩
        have hgm : g ≠ m := by
          intro hg
          rw [hg, hpf] at h2
          exact absurd h2 (by decide)
        exact ⟨by omega, h2, fun j hj1 hj2 => h3 j hj1 (by omega)⟩

theorem lastWrite_isSome (p : Nat → Bool) (f : Nat → Option Nat) (h0 : f 0 = none)
    (hs : ∀ m, f (m + 1) = if p m = true then some m else f m) (m : Nat) :
    (f m).isSome = true ↔ ∃ g, g < m ∧ p g = true := by
  induction m with
  | zero => simp [h0]
  | succ m ih =>
    rw [hs m]
    by_cases hp : p m = true
    · rw [if_pos hp]
      simp only [Option.isSome_some, true_iff]
      exact ⟨m, Nat.lt_succ_self m, hp⟩
    · rw [if_neg hp, ih]
      constructor
      · rintro ⟨g, h1, h2⟩
        exact ⟨g, by omega, h2⟩
      · rintro ⟨g, h1, h2⟩
        have hgm : g ≠ m := by
          intro hg
          rw [hg] at h2
          exact hp h2
        exact ⟨g, by omega, h2⟩

theorem scanState_graphics_succ (sup : Nat → Nat) (fams : List VkQueueFamilyProperties)
    (m : Nat) :
    (scanState sup fams (m + 1)).graphicsFamily =
      if offersGraphics fams m = true then some m else (scanState sup fams m).graphicsFamily := by
  cases h : fams[m]? with
  | none =>
    rw [scanState_succ_of_none sup fams m h]
    simp [offersGraphics, h]
  | some fam =>
    rw [scanState_succ_of_get sup fams m fam h, update_graphicsFamily]
    simp [offersGraphics, h]

theorem scanState_present_succ (sup : Nat → Nat) (fams : List VkQueueFamilyProperties)
    (m : Nat) :
    (scanState sup fams (m + 1)).presentFamily =
      if supportsPresent sup fams m = true then some m
      else (scanState sup fams m).presentFamily := by
  cases h : fams[m]? with
  | none =>
    rw [scanState_succ_of_none sup fams m h]
    have hlen : fams.length ≤ m := List.getElem?_eq_none_iff.mp h
    have : ¬ m < fams.length := by omega
    simp [supportsPresent, this]
  | some fam =>
    rw [scanState_succ_of_get sup fams m fam h, update_presentFamily]
    have hlen : m < fams.length := by
      by_contra hcon
      have : fams[m]? = none := List.getElem?_eq_none_iff.mpr (Nat.le_of_not_lt hcon)
      rw [this] at h
      exact Option.noConfusion h
    simp [supportsPresent, hlen]

theorem scanState_graphics_eq_some (sup : Nat → Nat) (fams : List VkQueueFamilyProperties)
    (m g : Nat) :
    (scanState sup fams m).graphicsFamily = some g ↔
      g < m ∧ offersGraphics fams g = true ∧
        ∀ j, g < j → j < m → offersGraphics fams j = false :=
  lastWrite_eq_some (offersGraphics fams) (fun k => (scanState sup fams k).graphicsFamily) rfl
    (scanState_graphics_succ sup fams) m g

theorem scanState_present_eq_some (sup : Nat → Nat) (fams : List VkQueueFamilyProperties)
    (m p : Nat) :
    (scanState sup fams m).presentFamily = some p ↔
      p < m ∧ supportsPresent sup fams p = true ∧
        ∀ j, p < j → j < m → supportsPresent sup fams j = false :=
  lastWrite_eq_some (supportsPresent sup fams) (fun k => (scanState sup fams k).presentFamily) rfl
    (scanState_present_succ sup fams) m p

theorem scanState_isComplete (sup : Nat → Nat) (fams : List VkQueueFamilyProperties) (m : Nat) :
    (scanState sup fams m).isComplete = true ↔ bothKnown sup fams m := by
  unfold QueueFamilyIndices.isComplete bothKnown
  rw [Bool.and_eq_true]
  rw [lastWrite_isSome (offersGraphics fams) (fun k => (scanState sup fams k).graphicsFamily) rfl
    (scanState_graphics_succ sup fams) m]
  rw [lastWrite_isSome (supportsPresent sup fams)
    (fun k => (scanState sup fams k).presentFamily) rfl (scanState_present_succ sup fams) m]

theorem bothKnown_mono (sup : Nat → Nat) (fams : List VkQueueFamilyProperties) (m n : Nat)
    (hmn : m ≤ n) (h : bothKnown sup fams m) : bothKnown sup fams n := by
  obtain ⟨⟨g, hg1, hg2⟩, ⟨p, hp1, hp2⟩⟩ := h
  exact ⟨⟨g, by omega, hg2⟩, ⟨p, by omega, hp2⟩⟩

/-- The loop from a fresh `indices`: it examines `n` families, `n` the least
count at which both roles are known (all of them when there is none), and each
role holds the last qualifying index among the examined ones. -/
theorem queueFamilyLoop_fresh (sup : Nat → Nat) (fams : List VkQueueFamilyProperties) :
    ∃ n, n ≤ fams.length ∧
      (queueFamilyLoop sup fams 0 { graphicsFamily := none, presentFamily := none }).1
        = scanState sup fams n ∧
      (∀ k, k < n → ¬ bothKnown sup fams k) ∧
      ((n = fams.length ∧ ¬ bothKnown sup fams n ∧
          (queueFamilyLoop sup fams 0 { graphicsFamily := none, presentFamily := none }).2 = n) ∨
        (bothKnown sup fams n ∧
          (queueFamilyLoop sup fams 0 { graphicsFamily := none, presentFamily := none }).2 + 1
            = n)) := by
  obtain ⟨n, _, h2, h3, h4, h5⟩ :=
    queueFamilyLoop_eq_scanState sup fams fams 0 rfl (Nat.zero_le _)
  have hzero : ¬ bothKnown sup fams 0 := by
    rintro ⟨⟨g, hg, _⟩, _⟩
    omega
  refine ⟨n, h2, h3, ?_, ?_⟩
  · intro k hk hb
    by_cases hk0 : k = 0
    · rw [hk0] at hb; exact hzero hb
    · have := h4 k (by omega) hk
      rw [(scanState_isComplete sup fams k).mpr hb] at this
      exact absurd this (by decide)
  · rcases h5 with ⟨a, b, c⟩ | ⟨a, b, c⟩
    · refine Or.inl ⟨a, ?_, b⟩
      intro hb
      by_cases hn0 : n = 0
      · rw [hn0] at hb; exact hzero hb
      · have := c (by omega)
        rw [(scanState_isComplete sup fams n).mpr hb] at this
        exact absurd this (by decide)
    · exact Or.inr ⟨(scanState_isComplete sup fams n).mp b, c⟩

theorem offersGraphics_lt (fams : List VkQueueFamilyProperties) (j : Nat)
    (h : offersGraphics fams j = true) : j < fams.length := by
  by_contra hcon
  have hnone : fams[j]? = none := List.getElem?_eq_none_iff.mpr (Nat.le_of_not_lt hcon)
  simp [offersGraphics, hnone] at h

theorem supportsPresent_lt (sup : Nat → Nat) (fams : List VkQueueFamilyProperties) (j : Nat)
    (h : supportsPresent sup fams j = true) : j < fams.length := by
  unfold supportsPresent at h
  rw [Bool.and_eq_true] at h
  exact of_decide_eq_true h.1

theorem bothKnown_length (sup : Nat → Nat) (fams : List VkQueueFamilyProperties) (m : Nat)
    (h : bothKnown sup fams m) : bothKnown sup fams fams.length := by
  obtain ⟨⟨g, _, hg2⟩, ⟨p, _, hp2⟩⟩ := h
  exact ⟨⟨g, offersGraphics_lt fams g hg2, hg2⟩, ⟨p, supportsPresent_lt sup fams p hp2, hp2⟩⟩

/-- C2 (the claim as stated fails): on a device whose families 0 and 1 both
offer graphics and whose first presenting family is 2, `findQueueFamily`
records graphics family 1 although family 0 already offers graphics; so the
recorded graphics family is not in general the smallest qualifying index. -/
theorem findQueueFamily_not_smallest_index :
    (findQueueFamily deviceTwoGraphicsFamilies).graphicsFamily = some 1 ∧
      offersGraphics deviceTwoGraphicsFamilies.familyProp 0 = true ∧
      ¬ (∀ (pd : PhysicalDevice) (g : Nat), (findQueueFamily pd).graphicsFamily = some g →
          ∀ j, j < g → offersGraphics pd.familyProp j = false) := by
  have h1 : (findQueueFamily deviceTwoGraphicsFamilies).graphicsFamily = some 1 := by decide
  have h2 : offersGraphics deviceTwoGraphicsFamilies.familyProp 0 = true := by decide
  refine ⟨h1, h2, ?_⟩
  intro hall
  have h3 := hall deviceTwoGraphicsFamilies 1 h1 0 (by decide)
  rw [h2] at h3
  exact absurd h3 (by decide)

/-- C2 (amended): queue-family resolution, in `findQueueFamily` and in the scan
of `isDeviceSuitable` alike, examines the first `n` families, where `n` is the
least count at which both a graphics family and a presenting family have been
seen (the whole list when there is none); it records as `graphicsFamily` the
largest examined index whose family offers graphics and as `presentFamily` the
largest examined index whose family supports presentation: among the examined
families the latest qualifying index wins. -/
theorem findQueueFamily_records_last_examined (pd : PhysicalDevice) :
    isDeviceSuitable.indices pd = findQueueFamily pd ∧
    ∃ n, n ≤ pd.familyProp.length ∧
      (∀ k, k < n → ¬ bothKnown pd.surfaceSupport pd.familyProp k) ∧
      (n = pd.familyProp.length ∨ bothKnown pd.surfaceSupport pd.familyProp n) ∧
      (∀ g, (findQueueFamily pd).graphicsFamily = some g ↔
        g < n ∧ offersGraphics pd.familyProp g = true ∧
          ∀ j, g < j → j < n → offersGraphics pd.familyProp j = false) ∧
      (∀ p, (findQueueFamily pd).presentFamily = some p ↔
        p < n ∧ supportsPresent pd.surfaceSupport pd.familyProp p = true ∧
          ∀ j, p < j → j < n → supportsPresent pd.surfaceSupport pd.familyProp j = false) := by
  refine ⟨rfl, ?_⟩
  obtain ⟨n, h1, h2, h3, h4⟩ := queueFamilyLoop_fresh pd.surfaceSupport pd.familyProp
  refine ⟨n, h1, h3, ?_, ?_, ?_⟩
  · rcases h4 with ⟨a, _, _⟩ | ⟨a, _⟩
    · exact Or.inl a
    · exact Or.inr a
  · intro g
    unfold findQueueFamily
    rw [h2]
    exact scanState_graphics_eq_some pd.surfaceSupport pd.familyProp n g
  · intro p
    unfold findQueueFamily
    rw [h2]
    exact scanState_present_eq_some pd.surfaceSupport pd.familyProp n p

theorem offersGraphics_congr (fams1 fams2 : List VkQueueFamilyProperties) (k j : Nat)
    (h : fams1.take (k + 1) = fams2.take (k + 1)) (hj : j ≤ k) :
    offersGraphics fams1 j = offersGraphics fams2 j := by
  have hlt : j < k + 1 := by omega
  have h1 : (fams1.take (k + 1))[j]? = fams1[j]? := by
    rw [List.getElem?_take, if_pos hlt]
  have h2 : (fams2.take (k + 1))[j]? = fams2[j]? := by
    rw [List.getElem?_take, if_pos hlt]
  unfold offersGraphics
  rw [← h1, ← h2, h]

theorem supportsPresent_congr (sup1 sup2 : Nat → Nat) (fams1 fams2 : List VkQueueFamilyProperties)
    (k j : Nat) (h : fams1.take (k + 1) = fams2.take (k + 1))
    (hsup : ∀ i, i ≤ k → sup1 i = sup2 i) (hj : j ≤ k) :
    supportsPresent sup1 fams1 j = supportsPresent sup2 fams2 j := by
  have hlen : (fams1.take (k + 1)).length = (fams2.take (k + 1)).length := by rw [h]
  rw [List.length_take, List.length_take] at hlen
  have hiff : j < fams1.length ↔ j < fams2.length := by
    constructor <;> intro hlt <;> omega
  unfold supportsPresent
  rw [hsup j hj]
  simp only [hiff]

theorem bothKnown_congr (sup1 sup2 : Nat → Nat) (fams1 fams2 : List VkQueueFamilyProperties)
    (k m : Nat) (h : fams1.take (k + 1) = fams2.take (k + 1))
    (hsup : ∀ i, i ≤ k → sup1 i = sup2 i) (hm : m ≤ k + 1) :
    bothKnown sup1 fams1 m ↔ bothKnown sup2 fams2 m := by
  unfold bothKnown
  constructor
  · rintro ⟨⟨g, hg1, hg2⟩, ⟨p, hp1, hp2⟩⟩
    refine ⟨⟨g, hg1, ?_⟩, ⟨p, hp1, ?_⟩⟩
    · rw [← offersGraphics_congr fams1 fams2 k g h (by omega)]; exact hg2
    · rw [← supportsPresent_congr sup1 sup2 fams1 fams2 k p h hsup (by omega)]; exact hp2
  · rintro ⟨⟨g, hg1, hg2⟩, ⟨p, hp1, hp2⟩⟩
    refine ⟨⟨g, hg1, ?_⟩, ⟨p, hp1, ?_⟩⟩
    · rw [offersGraphics_congr fams1 fams2 k g h (by omega)]; exact hg2
    · rw [supportsPresent_congr sup1 sup2 fams1 fams2 k p h hsup (by omega)]; exact hp2

theorem scanState_congr (sup1 sup2 : Nat → Nat) (fams1 fams2 : List VkQueueFamilyProperties)
    (k m : Nat) (h : fams1.take (k + 1) = fams2.take (k + 1))
    (hsup : ∀ i, i ≤ k → sup1 i = sup2 i) (hm : m ≤ k + 1) :
    scanState sup1 fams1 m = scanState sup2 fams2 m := by
  have hg : (scanState sup1 fams1 m).graphicsFamily = (scanState sup2 fams2 m).graphicsFamily := by
    apply Option.ext
    intro g
    simp only [Option.mem_def]
    rw [scanState_graphics_eq_some, scanState_graphics_eq_some]
    constructor
    · rintro ⟨a, b, c⟩
      refine ⟨a, ?_, fun j h1 h2 => ?_⟩
      · rw [← offersGraphics_congr fams1 fams2 k g h (by omega)]; exact b
      · rw [← offersGraphics_congr fams1 fams2 k j h (by omega)]; exact c j h1 h2
    · rintro ⟨a, b, c⟩
      refine ⟨a, ?_, fun j h1 h2 => ?_⟩
      · rw [offersGraphics_congr fams1 fams2 k g h (by omega)]; exact b
      · rw [offersGraphics_congr fams1 fams2 k j h (by omega)]; exact c j h1 h2
  have hp : (scanState sup1 fams1 m).presentFamily = (scanState sup2 fams2 m).presentFamily := by
    apply Option.ext
    intro p
    simp only [Option.mem_def]
    rw [scanState_present_eq_some, scanState_present_eq_some]
    constructor
    · rintro ⟨a, b, c⟩
      refine ⟨a, ?_, fun j h1 h2 => ?_⟩
      · rw [← supportsPresent_congr sup1 sup2 fams1 fams2 k p h hsup (by omega)]; exact b
      · rw [← supportsPresent_congr sup1 sup2 fams1 fams2 k j h hsup (by omega)]
        exact c j h1 h2
    · rintro ⟨a, b, c⟩
      refine ⟨a, ?_, fun j h1 h2 => ?_⟩
      · rw [supportsPresent_congr sup1 sup2 fams1 fams2 k p h hsup (by omega)]; exact b
      · rw [supportsPresent_congr sup1 sup2 fams1 fams2 k j h hsup (by omega)]
        exact c j h1 h2
  cases h1 : scanState sup1 fams1 m with
  | mk g1 p1 =>
    cases h2 : scanState sup2 fams2 m with
    | mk g2 p2 =>
      rw [h1, h2] at hg hp
      simp only at hg hp
      rw [hg, hp]

/-- The loop from a fresh `indices` on a list in which both roles are known
within the first `k + 1` families: it leaves by `break` at the first index at
which both roles are known. -/
theorem queueFamilyLoop_break (sup : Nat → Nat) (fams : List VkQueueFamilyProperties) (k : Nat)
    (hk : bothKnown sup fams (k + 1)) :
    ∃ n, n ≤ k + 1 ∧ n ≤ fams.length ∧
      (queueFamilyLoop sup fams 0 { graphicsFamily := none, presentFamily := none }).1
        = scanState sup fams n ∧
      (queueFamilyLoop sup fams 0 { graphicsFamily := none, presentFamily := none }).2 + 1 = n ∧
      bothKnown sup fams n ∧ (∀ m, m < n → ¬ bothKnown sup fams m) := by
  obtain ⟨n, h1, h2, h3, h4⟩ := queueFamilyLoop_fresh sup fams
  have hle : n ≤ k + 1 := by
    by_contra hcon
    exact h3 (k + 1) (by omega) hk
  rcases h4 with ⟨a, b, _⟩ | ⟨a, b⟩
  · exfalso
    apply b
    rw [a]
    exact bothKnown_length sup fams (k + 1) hk
  · exact ⟨n, hle, h1, h2, b, a, h3⟩

theorem queueFamilyLoop_congr_sup (sup1 sup2 : Nat → Nat) :
    ∀ (fams : List VkQueueFamilyProperties) (i : Nat) (indices : QueueFamilyIndices),
      (∀ j, i ≤ j → j < i + fams.length → sup1 j = sup2 j) →
      queueFamilyLoop sup1 fams i indices = queueFamilyLoop sup2 fams i indices := by
  intro fams
  induction fams with
  | nil => intro i indices _; rfl
  | cons fam rest ih =>
    intro i indices h
    have hi : sup1 i = sup2 i := h i (Nat.le_refl i) (by simp)
    have hu : queueFamilyLoop.update sup1 fam i indices
        = queueFamilyLoop.update sup2 fam i indices := by
      unfold queueFamilyLoop.update
      rw [hi]
    rw [queueFamilyLoop_cons, queueFamilyLoop_cons, hu]
    rw [ih (i + 1) (queueFamilyLoop.update sup2 fam i indices)
      (fun j h1 h2 => h j (by omega) (by simp only [List.length_cons]; omega))]

/-- C8: queue-family resolution depends on nothing but the ordered list of
queue-family properties and the presentation-support answers for its indices;
and when both roles are known within indices `0..k` of the first input, the
scan leaves its loop at the first index at which both are known (which is at
most `k`), so a second input that agrees with the first on indices `0..k`
yields the same pair and the same stopping index, whatever follows index `k`. -/
theorem findQueueFamily_determined_by_examined_families (pd1 pd2 : PhysicalDevice) :
    ((pd1.familyProp = pd2.familyProp ∧
        ∀ j, j < pd1.familyProp.length → pd1.surfaceSupport j = pd2.surfaceSupport j) →
      findQueueFamily pd1 = findQueueFamily pd2) ∧
    (∀ k, pd1.familyProp.take (k + 1) = pd2.familyProp.take (k + 1) →
      (∀ j, j ≤ k → pd1.surfaceSupport j = pd2.surfaceSupport j) →
      bothKnown pd1.surfaceSupport pd1.familyProp (k + 1) →
      findQueueFamily pd1 = findQueueFamily pd2 ∧
      (findQueueFamily pd1).isComplete = true ∧
      findQueueFamily.i pd1 = findQueueFamily.i pd2 ∧
      findQueueFamily.i pd1 ≤ k ∧
      bothKnown pd1.surfaceSupport pd1.familyProp (findQueueFamily.i pd1 + 1) ∧
      ∀ m, m ≤ findQueueFamily.i pd1 → ¬ bothKnown pd1.surfaceSupport pd1.familyProp m) := by
  constructor
  · rintro ⟨hf, hs⟩
    unfold findQueueFamily
    rw [← hf]
    rw [queueFamilyLoop_congr_sup pd1.surfaceSupport pd2.surfaceSupport pd1.familyProp 0 _
      (fun j _ h2 => hs j (by omega))]
  · intro k hfam hsup hk
    have hk2 : bothKnown pd2.surfaceSupport pd2.familyProp (k + 1) :=
      (bothKnown_congr _ _ _ _ k (k + 1) hfam hsup (Nat.le_refl _)).mp hk
    obtain ⟨n1, a1, _, c1, d1, e1, f1⟩ :=
      queueFamilyLoop_break pd1.surfaceSupport pd1.familyProp k hk
    obtain ⟨n2, a2, _, c2, d2, e2, f2⟩ :=
      queueFamilyLoop_break pd2.surfaceSupport pd2.familyProp k hk2
    have hn : n1 = n2 := by
      have h12 : ¬ n1 < n2 := fun hlt =>
        f2 n1 hlt ((bothKnown_congr _ _ _ _ k n1 hfam hsup a1).mp e1)
      have h21 : ¬ n2 < n1 := fun hlt =>
        f1 n2 hlt ((bothKnown_congr _ _ _ _ k n2 hfam hsup a2).mpr e2)
      omega
    subst hn
    have hi1 : findQueueFamily.i pd1 + 1 = n1 := d1
    have hi2 : findQueueFamily.i pd2 + 1 = n1 := d2
    have hr1 : findQueueFamily pd1 = scanState pd1.surfaceSupport pd1.familyProp n1 := c1
    have hr2 : findQueueFamily pd2 = scanState pd2.surfaceSupport pd2.familyProp n1 := c2
    refine ⟨?_, ?_, by omega, by omega, ?_, ?_⟩
    · rw [hr1, hr2]
      exact scanState_congr _ _ _ _ k n1 hfam hsup a1
    · rw [hr1]
      exact (scanState_isComplete _ _ n1).mpr e1
    · rw [hi1]; exact e1
    · intro m hm
      exact f1 m (by omega)

/-- C8, at a concrete input: the three-family device and its extension by two
further families agree on indices `0..2`, where both roles are known. -/
theorem findQueueFamily_determined_by_examined_families_witness :
    findQueueFamily deviceTwoGraphicsFamilies = findQueueFamily deviceTwoGraphicsFamiliesExtended ∧
      findQueueFamily deviceTwoGraphicsFamilies = ⟨some 1, some 2⟩ ∧
      findQueueFamily.i deviceTwoGraphicsFamilies = 2 ∧
      findQueueFamily.i deviceTwoGraphicsFamiliesExtended = 2 := by
  have hk : bothKnown deviceTwoGraphicsFamilies.surfaceSupport
      deviceTwoGraphicsFamilies.familyProp (2 + 1) :=
    ⟨⟨0, by decide, by decide⟩, ⟨2, by decide, by decide⟩⟩
  have hsup : ∀ j, j ≤ 2 → deviceTwoGraphicsFamilies.surfaceSupport j
      = deviceTwoGraphicsFamiliesExtended.surfaceSupport j := by
    intro j hj
    have h3 : j = 0 ∨ j = 1 ∨ j = 2 := by omega
    rcases h3 with h | h | h <;> subst h <;> decide
  have h := (findQueueFamily_determined_by_examined_families deviceTwoGraphicsFamilies
    deviceTwoGraphicsFamiliesExtended).2 2 (by decide) hsup hk
  exact ⟨h.1, by decide, by decide, by decide⟩

theorem eraseAdvertised_eq_sdiff (extProp : List VkExtensionProperties) :
    ∀ reqs : Finset String,
      eraseAdvertised reqs extProp = reqs \ (extProp.map (fun e => e.extensionName)).toFinset := by
  induction extProp with
  | nil =>
    intro reqs
    simp [eraseAdvertised]
  | cons e rest ih =>
    intro reqs
    have hstep : eraseAdvertised reqs (e :: rest)
        = eraseAdvertised (reqs.erase e.extensionName) rest := rfl
    rw [hstep, ih]
    ext x
    simp only [Finset.mem_sdiff, Finset.mem_erase, List.map_cons, List.toFinset_cons,
      Finset.mem_insert, List.mem_toFinset]
    tauto

theorem extension_block_iff (extProp : List VkExtensionProperties) :
    decide (eraseAdvertised deviceExtensions.toFinset extProp = ∅) = true ↔
      ∀ r, r ∈ deviceExtensions → r ∈ extProp.map (fun e => e.extensionName) := by
  rw [decide_eq_true_iff, eraseAdvertised_eq_sdiff, Finset.sdiff_eq_empty_iff_subset]
  constructor
  · intro h r hr
    exact List.mem_toFinset.mp (h (List.mem_toFinset.mpr hr))
  · intro h r hr
    exact List.mem_toFinset.mpr (h r (List.mem_toFinset.mp hr))

/-- C10: the extension support check, in `checkDeviceExtensionSupport` and in the
block of `isDeviceSuitable` alike, is true exactly when every required extension
name is among the advertised names, that is exactly when the set difference
required minus advertised is empty. -/
theorem checkDeviceExtensionSupport_iff_subset (pd : PhysicalDevice) :
    (checkDeviceExtensionSupport pd = true ↔
      ∀ r, r ∈ deviceExtensions → r ∈ advertisedNames pd) ∧
    (checkDeviceExtensionSupport pd = true ↔
      deviceExtensions.toFinset \ (advertisedNames pd).toFinset = ∅) ∧
    (isDeviceSuitable.extensionSupported pd = true ↔
      ∀ r, r ∈ deviceExtensions → r ∈ advertisedNames pd) ∧
    (isDeviceSuitable.extensionSupported pd = true ↔
      deviceExtensions.toFinset \ (advertisedNames pd).toFinset = ∅) := by
  have hsd : checkDeviceExtensionSupport pd = true ↔
      deviceExtensions.toFinset \ (advertisedNames pd).toFinset = ∅ := by
    unfold checkDeviceExtensionSupport advertisedNames
    simp only [decide_eq_true_iff, eraseAdvertised_eq_sdiff]
  exact ⟨extension_block_iff pd.extProp, hsd, extension_block_iff pd.extProp, hsd⟩

/-- C1: `isDeviceSuitable` is true exactly when the queue-family scan yields
both a graphics and a presentation family, every required extension name is
advertised, the surface reports at least one format and at least one present
mode, and the `samplerAnisotropy` feature is advertised. -/
theorem isDeviceSuitable_iff (pd : PhysicalDevice) :
    isDeviceSuitable pd = true ↔
      ((∃ g p, isDeviceSuitable.indices pd = ⟨some g, some p⟩) ∧
        (∀ r, r ∈ deviceExtensions → r ∈ advertisedNames pd) ∧
        1 ≤ pd.surfaceFormats.length ∧
        1 ≤ pd.surfacePresentModes.length ∧
        pd.features.samplerAnisotropy ≠ VK_FALSE) := by
  have hidx : (isDeviceSuitable.indices pd).isComplete = true ↔
      ∃ g p, isDeviceSuitable.indices pd = ⟨some g, some p⟩ := by
    cases h : isDeviceSuitable.indices pd with
    | mk g p =>
      cases g <;> cases p <;> simp [QueueFamilyIndices.isComplete]
  have hext := extension_block_iff pd.extProp
  have hfmt : (querySwapchainSupport pd).formats.isEmpty = false ↔
      1 ≤ pd.surfaceFormats.length := by
    unfold querySwapchainSupport
    cases pd.surfaceFormats <;> simp
  have hpm : (querySwapchainSupport pd).presentModes.isEmpty = false ↔
      1 ≤ pd.surfacePresentModes.length := by
    unfold querySwapchainSupport
    cases pd.surfacePresentModes <;> simp
  unfold isDeviceSuitable isDeviceSuitable.swapchainAdequate
  simp only [Bool.and_eq_true, decide_eq_true_iff, VK_FALSE]
  rw [hidx]
  have hext2 : isDeviceSuitable.extensionSupported pd = true ↔
      ∀ r, r ∈ deviceExtensions → r ∈ advertisedNames pd := hext
  by_cases he : isDeviceSuitable.extensionSupported pd = true
  · rw [if_pos he]
    simp only [Bool.and_eq_true, Bool.not_eq_true_eq_eq_false, Bool.not_eq_eq_eq_not,
      Bool.not_true]
    rw [hfmt, hpm, ← hext2]
    tauto
  · rw [if_neg he, ← hext2]
    simp only [Bool.false_eq_true]
    tauto

/-- C3 (the code at the scenario of the claim): for graphics family 2 and
presentation family 5 the create info declares concurrent sharing, but with
family index count 1, so that it lists family 2 alone and not the two families
2 and 5; and this is so for every pair of distinct indices, while for equal
indices the mode is exclusive with no listed family. -/
theorem swapchainInfo_concurrent_lists_one_family :
    findQueueFamily deviceGraphics2Present5 = ⟨some 2, some 5⟩ ∧
    (∃ info, CreateSwapchain.swapchainInfo deviceGraphics2Present5 800 600 = .ok info ∧
      info.imageSharingMode = VK_SHARING_MODE_CONCURRENT ∧
      info.queueFamilyIndexCount = 1 ∧
      info.pQueueFamilyIndices = some [2, 5] ∧
      info.listedFamilies = [2]) ∧
    (∀ (pd : PhysicalDevice) (width height : Int) (info : VkSwapchainCreateInfoKHR) (g p : Nat),
      CreateSwapchain.swapchainInfo pd width height = .ok info →
      findQueueFamily pd = ⟨some g, some p⟩ →
      (g ≠ p → info.imageSharingMode = VK_SHARING_MODE_CONCURRENT ∧
        info.queueFamilyIndexCount = 1 ∧ info.listedFamilies = [g]) ∧
      (g = p → info.imageSharingMode = VK_SHARING_MODE_EXCLUSIVE ∧
        info.queueFamilyIndexCount = 0 ∧ info.listedFamilies = [])) := by
  refine ⟨by decide, ⟨?_, ?_⟩⟩
  · refine ⟨_, rfl, ?_⟩
    decide
  · intro pd width height info g p hinfo hidx
    unfold CreateSwapchain.swapchainInfo at hinfo
    simp only [hidx, bind, Except.bind, pure, Except.pure] at hinfo
    cases hfmt : chooseFormat (querySwapchainSupport pd).formats with
    | error e =>
      rw [hfmt] at hinfo
      exact Except.noConfusion hinfo
    | ok fmt =>
      rw [hfmt] at hinfo
      simp only at hinfo
      have hinfo2 := Except.ok.inj hinfo
      subst hinfo2
      constructor
      · intro hne
        have hne2 : (some g : Option Nat) ≠ some p := fun h => hne (Option.some.inj h)
        simp [VkSwapchainCreateInfoKHR.listedFamilies, hne2]
      · intro heq
        simp [VkSwapchainCreateInfoKHR.listedFamilies, heq]

/-- C5: the image count `CreateSwapchain` requests is `minImageCount + 1` (the
`uint32_t` sum of line 98) bounded by `maxImageCount` when that is positive:
`min(minImageCount + 1, maxImageCount)` when `maxImageCount > 0`, and
`minImageCount + 1` when `maxImageCount = 0`; that count is the `minImageCount`
field of the create info; the sum is the plain one unless `minImageCount` is
`0xFFFFFFFF`; and `minImageCount = 2` with `maxImageCount = 0` requests 3. -/
theorem imagesCount_spec (details : SwapchainSupportDetails) :
    (0 < details.capabilities.maxImageCount →
      CreateSwapchain.imagesCount details =
        min (addUint32 details.capabilities.minImageCount 1) details.capabilities.maxImageCount) ∧
    (details.capabilities.maxImageCount = 0 →
      CreateSwapchain.imagesCount details = addUint32 details.capabilities.minImageCount 1) ∧
    (details.capabilities.minImageCount < UINT32_MAX →
      addUint32 details.capabilities.minImageCount 1 = details.capabilities.minImageCount + 1) ∧
    (details.capabilities.minImageCount = 2 → details.capabilities.maxImageCount = 0 →
      CreateSwapchain.imagesCount details = 3) ∧
    (∀ (pd : PhysicalDevice) (width height : Int) (info : VkSwapchainCreateInfoKHR),
      querySwapchainSupport pd = details →
      CreateSwapchain.swapchainInfo pd width height = .ok info →
      info.minImageCount = CreateSwapchain.imagesCount details) ∧
    (∃ info, CreateSwapchain.swapchainInfo deviceGraphics2Present5 800 600 = .ok info ∧
      (querySwapchainSupport deviceGraphics2Present5).capabilities.minImageCount = 2 ∧
      (querySwapchainSupport deviceGraphics2Present5).capabilities.maxImageCount = 0 ∧
      info.minImageCount = 3) := by
  refine ⟨?_, ?_, ?_, ?_, ?_, ⟨_, rfl, by decide⟩⟩
  · intro h
    unfold CreateSwapchain.imagesCount
    simp only [gt_iff_lt, h, true_and]
    split_ifs with hlt
    · exact (Nat.min_eq_right (Nat.le_of_lt hlt)).symm
    · exact (Nat.min_eq_left (Nat.le_of_not_lt hlt)).symm
  · intro h
    unfold CreateSwapchain.imagesCount
    simp [h]
  · intro h
    unfold addUint32
    unfold UINT32_MAX at h
    exact Nat.mod_eq_of_lt (by omega)
  · intro h1 h2
    unfold CreateSwapchain.imagesCount addUint32
    simp [h1, h2]
  · intro pd width height info hd hinfo
    unfold CreateSwapchain.swapchainInfo at hinfo
    simp only [bind, Except.bind, pure, Except.pure] at hinfo
    cases hfmt : chooseFormat (querySwapchainSupport pd).formats with
    | error e =>
      rw [hfmt] at hinfo
      exact Except.noConfusion hinfo
    | ok fmt =>
      rw [hfmt] at hinfo
      simp only at hinfo
      split at hinfo
      · have hinfo2 := Except.ok.inj hinfo
        rw [← hinfo2, hd]
      · exact Except.noConfusion hinfo

theorem preferred_test_iff (f : VkSurfaceFormatKHR) :
    (f.format == VK_FORMAT_B8G8R8A8_SRGB && f.colorSpace == VK_COLOR_SPACE_SRGB_NONLINEAR_KHR)
      = true ↔ f = preferredFormat := by
  cases f with
  | mk a b =>
    simp only [Bool.and_eq_true, beq_iff_eq, preferredFormat, VkSurfaceFormatKHR.mk.injEq]

/-- C6: on a non-empty advertised list `chooseFormat` returns the
(`VK_FORMAT_B8G8R8A8_SRGB`, `VK_COLOR_SPACE_SRGB_NONLINEAR_KHR`) entry when that
pair occurs at any position of the list, and the first entry otherwise. -/
theorem chooseFormat_spec (formats : List VkSurfaceFormatKHR) (hne : formats ≠ []) :
    ∃ first, formats[0]? = some first ∧
      (preferredFormat ∈ formats → chooseFormat formats = .ok preferredFormat) ∧
      (preferredFormat ∉ formats → chooseFormat formats = .ok first) := by
  cases formats with
  | nil => exact absurd rfl hne
  | cons first rest =>
    refine ⟨first, by simp, ?_, ?_⟩
    · intro hmem
      unfold chooseFormat
      cases hfind : List.find? (fun format => format.format == VK_FORMAT_B8G8R8A8_SRGB &&
          format.colorSpace == VK_COLOR_SPACE_SRGB_NONLINEAR_KHR) (first :: rest) with
      | none =>
        have hall := List.find?_eq_none.mp hfind preferredFormat hmem
        exact absurd ((preferred_test_iff preferredFormat).mpr rfl) hall
      | some x =>
        have hx := List.find?_some hfind
        rw [(preferred_test_iff x).mp hx]
    · intro hnot
      unfold chooseFormat
      cases hfind : List.find? (fun format => format.format == VK_FORMAT_B8G8R8A8_SRGB &&
          format.colorSpace == VK_COLOR_SPACE_SRGB_NONLINEAR_KHR) (first :: rest) with
      | none => simp
      | some x =>
        have hx := List.find?_some hfind
        have hmem : x ∈ first :: rest := List.mem_of_find?_eq_some hfind
        rw [(preferred_test_iff x).mp hx] at hmem
        exact absurd hmem hnot

/-- C6, at concrete inputs: the preferred pair in third position is returned,
and without it the first entry is. -/
theorem chooseFormat_spec_witness :
    chooseFormat [⟨37, 0⟩, ⟨43, 0⟩, ⟨50, 0⟩] = .ok preferredFormat ∧
      chooseFormat [⟨37, 0⟩, ⟨43, 0⟩, ⟨50, 1⟩] = .ok ⟨37, 0⟩ := by
  obtain ⟨first, h0, h1, _⟩ := chooseFormat_spec [⟨37, 0⟩, ⟨43, 0⟩, ⟨50, 0⟩] (by decide)
  obtain ⟨first2, k0, _, k2⟩ := chooseFormat_spec [⟨37, 0⟩, ⟨43, 0⟩, ⟨50, 1⟩] (by decide)
  have hf : first2 = ⟨37, 0⟩ := by
    have : some first2 = some (⟨37, 0⟩ : VkSurfaceFormatKHR) := by rw [← k0]; rfl
    exact Option.some.inj this
  rw [hf] at k2
  exact ⟨h1 (by decide), k2 (by decide)⟩

/-- C7: `choosePresentMode` returns `VK_PRESENT_MODE_MAILBOX_KHR` exactly when
that mode occurs in the advertised list and `VK_PRESENT_MODE_FIFO_KHR`
otherwise; and for a surface reporting the single format (R8G8B8A8,
sRGB-nonlinear) and the single present mode FIFO, the negotiated format is that
single format and the negotiated present mode is FIFO. -/
theorem choosePresentMode_spec (presentModes : List Nat) :
    (choosePresentMode presentModes = VK_PRESENT_MODE_MAILBOX_KHR ↔
      VK_PRESENT_MODE_MAILBOX_KHR ∈ presentModes) ∧
    (VK_PRESENT_MODE_MAILBOX_KHR ∉ presentModes →
      choosePresentMode presentModes = VK_PRESENT_MODE_FIFO_KHR) ∧
    (∀ fmt : VkSurfaceFormatKHR,
      fmt.format = VK_FORMAT_R8G8B8A8_SRGB ∨ fmt.format = VK_FORMAT_R8G8B8A8_UNORM →
      fmt.colorSpace = VK_COLOR_SPACE_SRGB_NONLINEAR_KHR →
      chooseFormat [fmt] = .ok fmt ∧ choosePresentMode [VK_PRESENT_MODE_FIFO_KHR]
        = VK_PRESENT_MODE_FIFO_KHR) ∧
    (querySwapchainSupport deviceGraphics2Present5).formats
      = [⟨VK_FORMAT_R8G8B8A8_SRGB, VK_COLOR_SPACE_SRGB_NONLINEAR_KHR⟩] ∧
    (querySwapchainSupport deviceGraphics2Present5).presentModes = [VK_PRESENT_MODE_FIFO_KHR] ∧
    (∃ info, CreateSwapchain.swapchainInfo deviceGraphics2Present5 800 600 = .ok info ∧
      info.imageFormat = VK_FORMAT_R8G8B8A8_SRGB ∧
      info.imageColorSpace = VK_COLOR_SPACE_SRGB_NONLINEAR_KHR ∧
      info.presentMode = VK_PRESENT_MODE_FIFO_KHR) := by
  have hnone : VK_PRESENT_MODE_MAILBOX_KHR ∉ presentModes →
      choosePresentMode presentModes = VK_PRESENT_MODE_FIFO_KHR := by
    intro hnot
    unfold choosePresentMode
    cases hfind : List.find? (fun presentMode => presentMode == VK_PRESENT_MODE_MAILBOX_KHR)
        presentModes with
    | none => rfl
    | some x =>
      have hx : x = VK_PRESENT_MODE_MAILBOX_KHR := by
        simpa using List.find?_some hfind
      have hmem : x ∈ presentModes := List.mem_of_find?_eq_some hfind
      rw [hx] at hmem
      exact absurd hmem hnot
  refine ⟨⟨?_, ?_⟩, hnone, ?_, by decide, by decide, ⟨_, rfl, by decide⟩⟩
  · intro h
    by_contra hnot
    rw [hnone hnot] at h
    exact absurd h (by decide)
  · intro hmem
    unfold choosePresentMode
    cases hfind : List.find? (fun presentMode => presentMode == VK_PRESENT_MODE_MAILBOX_KHR)
        presentModes with
    | none =>
      have hall := List.find?_eq_none.mp hfind VK_PRESENT_MODE_MAILBOX_KHR hmem
      simp at hall
    | some x =>
      simpa using List.find?_some hfind
  · intro fmt _ _
    refine ⟨?_, by decide⟩
    unfold chooseFormat
    by_cases hp : (fmt.format == VK_FORMAT_B8G8R8A8_SRGB &&
        fmt.colorSpace == VK_COLOR_SPACE_SRGB_NONLINEAR_KHR) = true
    · simp [List.find?, hp]
    · simp [List.find?, hp]

theorem isDeviceSuitable_complete (pd : PhysicalDevice) (h : isDeviceSuitable pd = true) :
    ∃ g p, findQueueFamily pd = ⟨some g, some p⟩ := by
  unfold isDeviceSuitable at h
  simp only [Bool.and_eq_true] at h
  have hc : (findQueueFamily pd).isComplete = true := h.1.1.1
  cases hq : findQueueFamily pd with
  | mk g p =>
    rw [hq] at hc
    cases g with
    | none => simp [QueueFamilyIndices.isComplete] at hc
    | some g =>
      cases p with
      | none => simp [QueueFamilyIndices.isComplete] at hc
      | some p => exact ⟨g, p, rfl⟩

theorem find_first_suitable (pre : List PhysicalDevice) (pd : PhysicalDevice)
    (post : List PhysicalDevice) (hpre : ∀ d, d ∈ pre → isDeviceSuitable d = false)
    (hpd : isDeviceSuitable pd = true) :
    (pre ++ pd :: post).find? isDeviceSuitable = some pd := by
  induction pre with
  | nil => simp [List.find?, hpd]
  | cons d rest ih =>
    have hd : isDeviceSuitable d = false := hpre d (List.mem_cons_self d rest)
    have hrest : ∀ e, e ∈ rest → isDeviceSuitable e = false :=
      fun e he => hpre e (List.mem_cons_of_mem d he)
    simp only [List.cons_append, List.find?, hd]
    exact ih hrest

theorem find_none_suitable (devices : List PhysicalDevice)
    (h : ∀ d, d ∈ devices → isDeviceSuitable d = false) :
    devices.find? isDeviceSuitable = none := by
  rw [List.find?_eq_none]
  intro d hd
  rw [h d hd]
  decide

/-- C9: from a fresh device object `CreateDevices` selects the first candidate,
in enumeration order, for which `isDeviceSuitable` is true (after which the body
either ends with exit code 6, the driver having rejected the creation, or
creates the logical device and runs to its last line, where the function has no
`return` statement to take); when no candidate is suitable it ends with exit
code 5, with no physical device selected and no logical device created,
whatever the driver would have answered. -/
theorem CreateDevices_selects_first_suitable (enableValidationLayers : Bool)
    (vkCreateDevice : PhysicalDevice → VkDeviceCreateInfo → Option Nat) (pInstance : Instance) :
    (∀ (pre : List PhysicalDevice) (pd : PhysicalDevice) (post : List PhysicalDevice),
      pInstance.physicalDevices = pre ++ pd :: post →
      (∀ d, d ∈ pre → isDeviceSuitable d = false) →
      isDeviceSuitable pd = true →
      (CreateDevices enableValidationLayers vkCreateDevice Vg_Device.fresh
          pInstance).1.physicalDevice = some pd ∧
      (((CreateDevices enableValidationLayers vkCreateDevice Vg_Device.fresh pInstance).2
            = .error .flows_off_end ∧
          (CreateDevices enableValidationLayers vkCreateDevice Vg_Device.fresh
            pInstance).1.logicalDevice.isSome = true) ∨
        ((CreateDevices enableValidationLayers vkCreateDevice Vg_Device.fresh pInstance).2
            = .error (.exit 6) ∧
          (CreateDevices enableValidationLayers vkCreateDevice Vg_Device.fresh
            pInstance).1.logicalDevice = none))) ∧
    ((∀ d, d ∈ pInstance.physicalDevices → isDeviceSuitable d = false) →
      (CreateDevices enableValidationLayers vkCreateDevice Vg_Device.fresh pInstance).2
          = .error (.exit 5) ∧
      (CreateDevices enableValidationLayers vkCreateDevice Vg_Device.fresh
          pInstance).1.physicalDevice = none ∧
      (CreateDevices enableValidationLayers vkCreateDevice Vg_Device.fresh
          pInstance).1.logicalDevice = none) := by
  constructor
  · intro pre pd post hlist hpre hpd
    have hfind : pInstance.physicalDevices.find? isDeviceSuitable = some pd := by
      rw [hlist]
      exact find_first_suitable pre pd post hpre hpd
    obtain ⟨g, p, hq⟩ := isDeviceSuitable_complete pd hpd
    unfold CreateDevices
    simp only [hfind, hq, Vg_Device.fresh]
    cases hdrv : vkCreateDevice pd
      { pQueueCreateInfos := (({g, p} : Finset Nat).sort (· ≤ ·)).map fun queueFamily =>
          ({ queueFamilyIndex := queueFamily, queueCount := 1, pQueuePriorities := [1] } :
            VkDeviceQueueCreateInfo)
        pEnabledFeatures := { samplerAnisotropy := VK_TRUE }
        ppEnabledExtensionNames := deviceExtensions
        ppEnabledLayerNames := if enableValidationLayers then validationLayers else [] } with
    | none => simp
    | some dev => simp
  · intro hnone
    have hfind := find_none_suitable pInstance.physicalDevices hnone
    unfold CreateDevices
    simp only [hfind, Vg_Device.fresh]
    refine ⟨?_, ?_, ?_⟩ <;> trivial

/-- C9, at a concrete input: of three enumerated candidates the first lacks the
swapchain extension, so the second is selected; and an instance whose only
candidate lacks it ends with exit code 5. -/
theorem CreateDevices_selects_first_suitable_witness :
    (isDeviceSuitable deviceWithoutSwapchainExtension = false ∧
      isDeviceSuitable deviceGraphics2Present5 = true ∧
      isDeviceSuitable deviceTwoGraphicsFamilies = true) ∧
    (CreateDevices true (fun _ _ => some 7) Vg_Device.fresh
      ⟨[deviceWithoutSwapchainExtension, deviceGraphics2Present5,
        deviceTwoGraphicsFamilies]⟩).1.physicalDevice = some deviceGraphics2Present5 ∧
    (CreateDevices true (fun _ _ => some 7) Vg_Device.fresh
      ⟨[deviceWithoutSwapchainExtension]⟩).2 = .error (.exit 5) := by
  have hbad : isDeviceSuitable deviceWithoutSwapchainExtension = false := by decide
  have hgood : isDeviceSuitable deviceGraphics2Present5 = true := by decide
  refine ⟨⟨hbad, hgood, by decide⟩, ?_, ?_⟩
  · exact ((CreateDevices_selects_first_suitable true (fun _ _ => some 7)
      ⟨[deviceWithoutSwapchainExtension, deviceGraphics2Present5,
        deviceTwoGraphicsFamilies]⟩).1 [deviceWithoutSwapchainExtension]
      deviceGraphics2Present5 [deviceTwoGraphicsFamilies] rfl
      (by
        intro d hd
        rw [List.mem_singleton] at hd
        rw [hd]
        exact hbad) hgood).1
  · exact ((CreateDevices_selects_first_suitable true (fun _ _ => some 7)
      ⟨[deviceWithoutSwapchainExtension]⟩).2
      (by
        intro d hd
        rw [List.mem_singleton] at hd
        rw [hd]
        exact hbad)).1

theorem and_depth_bit_iff (n : Nat) :
    n &&& VK_FORMAT_FEATURE_DEPTH_STENCIL_ATTACHMENT_BIT
      = VK_FORMAT_FEATURE_DEPTH_STENCIL_ATTACHMENT_BIT ↔ n.testBit 9 = true := by
  have h := Nat.and_two_pow n 9
  have h512 : (2 : Nat) ^ 9 = 512 := by norm_num
  rw [h512] at h
  unfold VK_FORMAT_FEATURE_DEPTH_STENCIL_ATTACHMENT_BIT
  rw [h]
  cases n.testBit 9 <;> simp

theorem findSupportedFormat_optimal_cons
    (props : Nat → VkFormatProperties) (format : Nat) (rest : List Nat) :
    findSupportedFormat props (format :: rest) VK_IMAGE_TILING_OPTIMAL
        VK_FORMAT_FEATURE_DEPTH_STENCIL_ATTACHMENT_BIT =
      if depthAttachmentSupported props format = true then .ok format
      else findSupportedFormat props rest VK_IMAGE_TILING_OPTIMAL
        VK_FORMAT_FEATURE_DEPTH_STENCIL_ATTACHMENT_BIT := by
  have hne : ¬ VK_IMAGE_TILING_OPTIMAL = VK_IMAGE_TILING_LINEAR := by decide
  rw [findSupportedFormat]
  simp only [hne, false_and, if_false, true_and]
  unfold depthAttachmentSupported
  by_cases hb : (props format).optimalTilingFeatures.testBit 9 = true
  · rw [if_pos ((and_depth_bit_iff _).mpr hb), if_pos hb]
  · rw [if_neg (fun h => hb ((and_depth_bit_iff _).mp h)), if_neg hb]

/-- C12: for every assignment of format properties, `findDepthFormat` returns the
first format of the preference list `D32_SFLOAT`, `D32_SFLOAT_S8_UINT`,
`D24_UNORM_S8_UINT` whose optimal-tiling features include the
depth/stencil-attachment bit, and ends with exit code 10, returning no format,
when none of the three has it. -/
theorem findDepthFormat_spec (props : Nat → VkFormatProperties) :
    findDepthFormat props =
      (if depthAttachmentSupported props VK_FORMAT_D32_SFLOAT = true then
        .ok VK_FORMAT_D32_SFLOAT
      else if depthAttachmentSupported props VK_FORMAT_D32_SFLOAT_S8_UINT = true then
        .ok VK_FORMAT_D32_SFLOAT_S8_UINT
      else if depthAttachmentSupported props VK_FORMAT_D24_UNORM_S8_UINT = true then
        .ok VK_FORMAT_D24_UNORM_S8_UINT
      else .error (.exit 10)) ∧
    (∀ format, depthAttachmentSupported props format = true ↔
      (props format).optimalTilingFeatures &&& VK_FORMAT_FEATURE_DEPTH_STENCIL_ATTACHMENT_BIT
        = VK_FORMAT_FEATURE_DEPTH_STENCIL_ATTACHMENT_BIT) ∧
    findDepthFormat formatPropertiesD24Only = .ok VK_FORMAT_D24_UNORM_S8_UINT ∧
    findDepthFormat (fun _ => ⟨512, 0, 512⟩) = .error (.exit 10) := by
  refine ⟨?_, ?_, rfl, rfl⟩
  · unfold findDepthFormat
    rw [findSupportedFormat_optimal_cons, findSupportedFormat_optimal_cons,
      findSupportedFormat_optimal_cons]
    rfl
  · intro format
    exact (and_depth_bit_iff _).symm

/-- C14 (the code as written): the array of `CreateRenderPass` holds the colour
descriptor as the claim says, but its depth descriptor has only the format of
`findDepthFormat` assigned: load op, store op and final layout are the zeros of
`{}`, that is load op load (not clear), store op store (not don't-care) and
final layout undefined (not depth-stencil-attachment-optimal), because the
source assigns them to the misspelt `depthAttachemntDescriptor`; and the
subpass handed over is the object of the undeclared name `subpass`, not the
`subpassDescriptor` that references attachments 0 and 1. -/
theorem renderPassInfo_depth_fields_unassigned :
    findDepthFormat formatPropertiesD24Only = .ok VK_FORMAT_D24_UNORM_S8_UINT ∧
    (∃ info color depth,
      CreateRenderPass.renderPassInfo formatPropertiesD24Only VK_FORMAT_B8G8R8A8_SRGB
        VkAttachmentDescription.zero subpassUnset = .ok info ∧
      info.pAttachments = [color, depth] ∧
      color.format = VK_FORMAT_B8G8R8A8_SRGB ∧
      color.loadOp = VK_ATTACHMENT_LOAD_OP_CLEAR ∧
      color.storeOp = VK_ATTACHMENT_STORE_OP_STORE ∧
      color.initialLayout = VK_IMAGE_LAYOUT_UNDEFINED ∧
      color.finalLayout = VK_IMAGE_LAYOUT_PRESENT_SRC_KHR ∧
      depth.format = VK_FORMAT_D24_UNORM_S8_UINT ∧
      depth.loadOp = VK_ATTACHMENT_LOAD_OP_LOAD ∧
      depth.loadOp ≠ VK_ATTACHMENT_LOAD_OP_CLEAR ∧
      depth.storeOp = VK_ATTACHMENT_STORE_OP_STORE ∧
      depth.storeOp ≠ VK_ATTACHMENT_STORE_OP_DONT_CARE ∧
      depth.initialLayout = VK_IMAGE_LAYOUT_UNDEFINED ∧
      depth.finalLayout = VK_IMAGE_LAYOUT_UNDEFINED ∧
      depth.finalLayout ≠ VK_IMAGE_LAYOUT_DEPTH_STENCIL_ATTACHMENT_OPTIMAL ∧
      info.pSubpasses = [subpassUnset]) ∧
    (∀ (props : Nat → VkFormatProperties) (s_format depthFormat : Nat)
        (outer : VkAttachmentDescription) (subpass : VkSubpassDescription),
      findDepthFormat props = .ok depthFormat →
      ∃ info,
        CreateRenderPass.renderPassInfo props s_format outer subpass = .ok info ∧
        info.pAttachments[1]? = some { VkAttachmentDescription.zero with format := depthFormat } ∧
        info.pSubpasses = [subpass]) := by
  refine ⟨rfl, ⟨_, _, _, rfl, rfl, ?_⟩, ?_⟩
  · decide
  · intro props s_format depthFormat outer subpass h
    unfold CreateRenderPass.renderPassInfo
    simp only [h, bind, Except.bind, pure, Except.pure]
    exact ⟨_, rfl, rfl, rfl⟩

theorem std_clamp_bounds (v lo hi : Nat) (h : lo ≤ hi) :
    lo ≤ std.clamp v lo hi ∧ std.clamp v lo hi ≤ hi := by
  unfold std.clamp
  omega

theorem toUint32_neg (x : Int) (h1 : -2147483648 ≤ x) (h2 : x < 0) :
    toUint32 x = (x + 4294967296).toNat ∧ 2147483648 ≤ toUint32 x := by
  unfold toUint32
  have h : x % 4294967296 = x + 4294967296 := by omega
  rw [h]
  exact ⟨rfl, by omega⟩

theorem chooseExtent_undefined (capabilities : VkSurfaceCapabilitiesKHR) (width height : Int)
    (hs : capabilities.currentExtent.width = UINT32_MAX) :
    (chooseExtent capabilities width height).width =
        std.clamp (toUint32 width) capabilities.minImageExtent.width
          capabilities.maxImageExtent.width ∧
      (chooseExtent capabilities width height).height =
        std.clamp (toUint32 height) capabilities.minImageExtent.height
          capabilities.maxImageExtent.height := by
  unfold chooseExtent
  rw [if_neg (not_not.mpr hs)]
  exact ⟨rfl, rfl⟩

/-- C16 (the claim as stated fails): with maximum image extent `0xFFFFFFFF` the
requested width -2 becomes `0xFFFFFFFE`, which lies within the bounds and is
returned as it is: a negative dimension does not always yield the maximum. -/
theorem chooseExtent_negative_not_maximum :
    capabilitiesHugeMaxExtent.currentExtent.width = UINT32_MAX ∧
    capabilitiesHugeMaxExtent.minImageExtent.width
      ≤ capabilitiesHugeMaxExtent.maxImageExtent.width ∧
    capabilitiesHugeMaxExtent.minImageExtent.height
      ≤ capabilitiesHugeMaxExtent.maxImageExtent.height ∧
    (chooseExtent capabilitiesHugeMaxExtent (-2) 600).width = 4294967294 ∧
    (chooseExtent capabilitiesHugeMaxExtent (-2) 600).width
      ≠ capabilitiesHugeMaxExtent.maxImageExtent.width := by
  decide

/-- C16 (amended): for a capability record whose current extent width is
`0xFFFFFFFF` and whose minimum image extent is component-wise at most its
maximum, and for all signed width and height, the extent `chooseExtent` returns
lies between the minimum and the maximum on each axis; a negative 32-bit
dimension enters the clamp as itself plus `2 ^ 32`, and yields the maximum of
its axis whenever that maximum is below `2 ^ 31`. -/
theorem chooseExtent_within_bounds (capabilities : VkSurfaceCapabilitiesKHR)
    (width height : Int)
    (hs : capabilities.currentExtent.width = UINT32_MAX)
    (hw : capabilities.minImageExtent.width ≤ capabilities.maxImageExtent.width)
    (hh : capabilities.minImageExtent.height ≤ capabilities.maxImageExtent.height) :
    capabilities.minImageExtent.width ≤ (chooseExtent capabilities width height).width ∧
    (chooseExtent capabilities width height).width ≤ capabilities.maxImageExtent.width ∧
    capabilities.minImageExtent.height ≤ (chooseExtent capabilities width height).height ∧
    (chooseExtent capabilities width height).height ≤ capabilities.maxImageExtent.height ∧
    (-2147483648 ≤ width → width < 0 →
      (chooseExtent capabilities width height).width =
        std.clamp (width + 4294967296).toNat capabilities.minImageExtent.width
          capabilities.maxImageExtent.width) ∧
    (-2147483648 ≤ height → height < 0 →
      (chooseExtent capabilities width height).height =
        std.clamp (height + 4294967296).toNat capabilities.minImageExtent.height
          capabilities.maxImageExtent.height) ∧
    (-2147483648 ≤ width → width < 0 → capabilities.maxImageExtent.width < 2147483648 →
      (chooseExtent capabilities width height).width = capabilities.maxImageExtent.width) ∧
    (-2147483648 ≤ height → height < 0 → capabilities.maxImageExtent.height < 2147483648 →
      (chooseExtent capabilities width height).height = capabilities.maxImageExtent.height) := by
  obtain ⟨ew, eh⟩ := chooseExtent_undefined capabilities width height hs
  have bw := std_clamp_bounds (toUint32 width) _ _ hw
  have bh := std_clamp_bounds (toUint32 height) _ _ hh
  rw [ew, eh]
  refine ⟨bw.1, bw.2, bh.1, bh.2, ?_, ?_, ?_, ?_⟩
  · intro h1 h2
    rw [(toUint32_neg width h1 h2).1]
  · intro h1 h2
    rw [(toUint32_neg height h1 h2).1]
  · intro h1 h2 h3
    have := (toUint32_neg width h1 h2).2
    unfold std.clamp
    omega
  · intro h1 h2 h3
    have := (toUint32_neg height h1 h2).2
    unfold std.clamp
    omega

/-- C16 (amended), at a concrete input: bounds 1..4096 on both axes, requested
width -1 and height 600. -/
theorem chooseExtent_within_bounds_witness :
    chooseExtent deviceUndefinedExtent.surfaceCapabilities (-1) 600 = ⟨4096, 600⟩ ∧
    (chooseExtent deviceUndefinedExtent.surfaceCapabilities (-1) 600).width
      = deviceUndefinedExtent.surfaceCapabilities.maxImageExtent.width := by
  have h := chooseExtent_within_bounds deviceUndefinedExtent.surfaceCapabilities (-1) 600
    (by decide) (by decide) (by decide)
  exact ⟨by decide, h.2.2.2.2.2.2.1 (by decide) (by decide) (by decide)⟩

theorem isDeviceSuitable_formats (pd : PhysicalDevice) (h : isDeviceSuitable pd = true) :
    (querySwapchainSupport pd).formats ≠ [] := by
  unfold isDeviceSuitable at h
  simp only [Bool.and_eq_true] at h
  have ha : isDeviceSuitable.swapchainAdequate pd = true := h.1.2
  unfold isDeviceSuitable.swapchainAdequate at ha
  split at ha
  · simp only [Bool.and_eq_true, Bool.not_eq_true_eq_eq_false, Bool.not_eq_eq_eq_not,
      Bool.not_true] at ha
    intro hnil
    rw [hnil] at ha
    simp at ha
  · exact absurd ha (by decide)

theorem chooseFormat_ok (formats : List VkSurfaceFormatKHR) (hne : formats ≠ []) :
    ∃ format, chooseFormat formats = .ok format := by
  unfold chooseFormat
  cases hfind : List.find? (fun format => format.format == VK_FORMAT_B8G8R8A8_SRGB &&
      format.colorSpace == VK_COLOR_SPACE_SRGB_NONLINEAR_KHR) formats with
  | some x => exact ⟨x, rfl⟩
  | none =>
    cases formats with
    | nil => exact absurd rfl hne
    | cons first rest => exact ⟨first, by simp⟩

theorem swapchainInfo_ok (pd : PhysicalDevice) (width height : Int)
    (hne : (querySwapchainSupport pd).formats ≠ [])
    (hc : ∃ g p, findQueueFamily pd = ⟨some g, some p⟩) :
    ∃ info, CreateSwapchain.swapchainInfo pd width height = .ok info := by
  obtain ⟨format, hf⟩ := chooseFormat_ok _ hne
  obtain ⟨g, p, hq⟩ := hc
  unfold CreateSwapchain.swapchainInfo
  simp only [hf, hq, bind, Except.bind, pure, Except.pure]
  exact ⟨_, rfl⟩

theorem CreateDevices_fresh_outcome (enableValidationLayers : Bool)
    (vkCreateDevice : PhysicalDevice → VkDeviceCreateInfo → Option Nat)
    (pre : List PhysicalDevice) (pd : PhysicalDevice) (post : List PhysicalDevice)
    (hpre : ∀ d, d ∈ pre → isDeviceSuitable d = false) (hpd : isDeviceSuitable pd = true) :
    (CreateDevices enableValidationLayers vkCreateDevice Vg_Device.fresh
        ⟨pre ++ pd :: post⟩).1.physicalDevice = some pd ∧
    ((CreateDevices enableValidationLayers vkCreateDevice Vg_Device.fresh
        ⟨pre ++ pd :: post⟩).2 = .error .flows_off_end ∨
      (CreateDevices enableValidationLayers vkCreateDevice Vg_Device.fresh
        ⟨pre ++ pd :: post⟩).2 = .error (.exit 6)) := by
  have hfind := find_first_suitable pre pd post hpre hpd
  obtain ⟨g, p, hq⟩ := isDeviceSuitable_complete pd hpd
  unfold CreateDevices
  simp only [hfind, hq, Vg_Device.fresh]
  cases hdrv : vkCreateDevice pd
    { pQueueCreateInfos := (({g, p} : Finset Nat).sort (· ≤ ·)).map fun queueFamily =>
        ({ queueFamilyIndex := queueFamily, queueCount := 1, pQueuePriorities := [1] } :
          VkDeviceQueueCreateInfo)
      pEnabledFeatures := { samplerAnisotropy := VK_TRUE }
      ppEnabledExtensionNames := deviceExtensions
      ppEnabledLayerNames := if enableValidationLayers then validationLayers else [] } with
  | none => simp
  | some dev => simp

/-- C15: for a candidate that `isDeviceSuitable` accepts, `findQueueFamily` on
that candidate returns the pair of the scan inside `isDeviceSuitable`, and both
indices of the pair are set; so `CreateDevices`, which selects the candidate as
the first suitable one, does not end with an empty-optional access, and neither
does the construction of the swapchain create info for it, which is built. -/
theorem suitable_device_indices_complete (pd : PhysicalDevice)
    (h : isDeviceSuitable pd = true) :
    findQueueFamily pd = isDeviceSuitable.indices pd ∧
    (∃ g p, findQueueFamily pd = ⟨some g, some p⟩) ∧
    (∀ (enableValidationLayers : Bool)
        (vkCreateDevice : PhysicalDevice → VkDeviceCreateInfo → Option Nat)
        (pre post : List PhysicalDevice),
      (∀ d, d ∈ pre → isDeviceSuitable d = false) →
      (CreateDevices enableValidationLayers vkCreateDevice Vg_Device.fresh
          ⟨pre ++ pd :: post⟩).1.physicalDevice = some pd ∧
      (CreateDevices enableValidationLayers vkCreateDevice Vg_Device.fresh
          ⟨pre ++ pd :: post⟩).2 ≠ .error .bad_optional_access) ∧
    (∀ width height : Int,
      CreateSwapchain.swapchainInfo pd width height ≠ .error .bad_optional_access ∧
      ∃ info, CreateSwapchain.swapchainInfo pd width height = .ok info) := by
  have hc := isDeviceSuitable_complete pd h
  refine ⟨rfl, hc, ?_, ?_⟩
  · intro evl drv pre post hpre
    obtain ⟨h1, h2⟩ := CreateDevices_fresh_outcome evl drv pre pd post hpre h
    refine ⟨h1, ?_⟩
    rcases h2 with h2 | h2 <;> rw [h2] <;> intro hcon
    · exact Abort.noConfusion (Except.error.inj hcon)
    · exact Abort.noConfusion (Except.error.inj hcon)
  · intro width height
    obtain ⟨info, hi⟩ := swapchainInfo_ok pd width height (isDeviceSuitable_formats pd h) hc
    rw [hi]
    exact ⟨fun hcon => Except.noConfusion hcon, info, rfl⟩

/-- C15, at a concrete input: the device with graphics family 2 and presentation
family 5 is suitable. -/
theorem suitable_device_indices_complete_witness :
    isDeviceSuitable deviceGraphics2Present5 = true ∧
    findQueueFamily deviceGraphics2Present5 = isDeviceSuitable.indices deviceGraphics2Present5 ∧
    findQueueFamily deviceGraphics2Present5 = ⟨some 2, some 5⟩ := by
  have hs : isDeviceSuitable deviceGraphics2Present5 = true := by decide
  exact ⟨hs, (suitable_device_indices_complete deviceGraphics2Present5 hs).1, by decide⟩

/-- C11 (the code at a concrete input): the object that the body of
`CreateSwapchain` leaves at 800 x 600 on a surface with undefined current extent
(the body runs to its last line) has extent 800 x 600; after
`RecreateSwapchain(1024, 768)` the object still has that extent and still
names the chain that was destroyed, the calls made being the idle wait and the
destructions only, whereas `CreateSwapchain` at 1024 x 768 gives extent
1024 x 768. In general `RecreateSwapchain` leaves every member as it was and
makes the idle wait followed by the calls of `CleanSwapchain`. -/
theorem RecreateSwapchain_only_tears_down :
    (CreateSwapchain driverCreateSwapchain driverSwapchainImages swapchainObject
      deviceUndefinedExtent 800 600).2 = .error .flows_off_end ∧
    (CreateSwapchain driverCreateSwapchain driverSwapchainImages swapchainObject
      deviceUndefinedExtent 800 600).1.s_extent = ⟨800, 600⟩ ∧
    (RecreateSwapchain
      (CreateSwapchain driverCreateSwapchain driverSwapchainImages swapchainObject
        deviceUndefinedExtent 800 600).1 1024 768).1.s_extent = ⟨800, 600⟩ ∧
    (RecreateSwapchain
      (CreateSwapchain driverCreateSwapchain driverSwapchainImages swapchainObject
        deviceUndefinedExtent 800 600).1 1024 768).1.swapchain = 100 ∧
    (RecreateSwapchain
      (CreateSwapchain driverCreateSwapchain driverSwapchainImages swapchainObject
        deviceUndefinedExtent 800 600).1 1024 768).2 =
      [VkCall.vkDeviceWaitIdle, VkCall.vkDestroyImageView 22, VkCall.vkDestroyImage 21,
        VkCall.vkFreeMemory 23, VkCall.vkDestroyFramebuffer 31, VkCall.vkDestroyFramebuffer 32,
        VkCall.vkDestroySwapchainKHR 100] ∧
    (CreateSwapchain driverCreateSwapchain driverSwapchainImages
      (CreateSwapchain driverCreateSwapchain driverSwapchainImages swapchainObject
        deviceUndefinedExtent 800 600).1 deviceUndefinedExtent 1024 768).1.s_extent
      = ⟨1024, 768⟩ ∧
    (∀ (self : Vg_Swapchain) (width height : Int),
      (RecreateSwapchain self width height).1 = self ∧
      (RecreateSwapchain self width height).2
        = VkCall.vkDeviceWaitIdle :: (CleanSwapchain self).2) := by
  refine ⟨rfl, by decide, by decide, by decide, by decide, by decide, ?_⟩
  intro self width height
  exact ⟨rfl, rfl⟩

theorem strcmp_go_eq_zero_iff : ∀ as bs : List Char, strcmp.go as bs = 0 ↔ as = bs := by
  intro as
  induction as with
  | nil =>
    intro bs
    cases bs with
    | nil => simp [strcmp.go]
    | cons b bs => simp [strcmp.go]
  | cons a as ih =>
    intro bs
    cases bs with
    | nil => simp [strcmp.go]
    | cons b bs =>
      rw [strcmp.go]
      by_cases h : a = b
      · rw [if_pos h, ih bs, h]
        simp
      · rw [if_neg h]
        constructor
        · intro h0
          split_ifs at h0
          all_goals exact absurd h0 (by decide)
        · intro heq
          exact absurd (List.cons.inj heq).1 h

theorem strcmp_ne_zero_iff (a b : String) : strcmp a b ≠ 0 ↔ a ≠ b := by
  unfold strcmp
  rw [Ne, Ne, strcmp_go_eq_zero_iff]
  constructor
  · intro h hab
    exact h (by rw [hab])
  · intro h hdata
    exact h (String.ext hdata)

theorem layerFound_iff (layerName : String) (layerProp : List VkLayerProperties) :
    checkValidationLayerSupport.layerFound layerName layerProp = true ↔
      ∃ layer, layer ∈ layerProp ∧ layerName ≠ layer.layerName := by
  induction layerProp with
  | nil => simp [checkValidationLayerSupport.layerFound]
  | cons layer rest ih =>
    rw [checkValidationLayerSupport.layerFound]
    by_cases h : strcmp layerName layer.layerName ≠ 0
    · rw [if_pos h]
      simp only [true_iff]
      exact ⟨layer, List.mem_cons_self layer rest, (strcmp_ne_zero_iff _ _).mp h⟩
    · rw [if_neg h, ih]
      have heq : layerName = layer.layerName := by
        by_contra hne
        exact h ((strcmp_ne_zero_iff _ _).mpr hne)
      constructor
      · rintro ⟨l, hl, hne⟩
        exact ⟨l, List.mem_cons_of_mem layer hl, hne⟩
      · rintro ⟨l, hl, hne⟩
        rcases List.mem_cons.mp hl with hl | hl
        · rw [hl] at hne
          exact absurd heq hne
        · exact ⟨l, hl, hne⟩

theorem checkValidationLayerSupport_loop_iff (layerProp : List VkLayerProperties)
    (names : List String) :
    checkValidationLayerSupport.loop layerProp names = true ↔
      ∀ layerName, layerName ∈ names →
        ∃ layer, layer ∈ layerProp ∧ layerName ≠ layer.layerName := by
  induction names with
  | nil => simp [checkValidationLayerSupport.loop]
  | cons name rest ih =>
    rw [checkValidationLayerSupport.loop]
    by_cases h : checkValidationLayerSupport.layerFound name layerProp = true
    · simp only [h, Bool.not_true, Bool.false_eq_true, if_false, ih]
      constructor
      · intro hall n hn
        rcases List.mem_cons.mp hn with hn | hn
        · rw [hn]; exact (layerFound_iff name layerProp).mp h
        · exact hall n hn
      · intro hall n hn
        exact hall n (List.mem_cons_of_mem name hn)
    · have hf : checkValidationLayerSupport.layerFound name layerProp = false := by
        simpa using h
      simp only [hf, Bool.not_false, if_true, Bool.false_eq_true, false_iff]
      intro hall
      exact h ((layerFound_iff name layerProp).mpr (hall name (List.mem_cons_self name rest)))

/-- C17 (the code at concrete inputs): when the only available layer is
`VK_LAYER_KHRONOS_validation` itself, `checkValidationLayerSupport` returns false
and `CreateInstance` with validation enabled returns 1; when the only available
layer is another one, it returns true and `CreateInstance` does not return 1.
In general it returns true exactly when every required layer name differs from
the name of some available layer. -/
theorem checkValidationLayerSupport_tests_difference :
    checkValidationLayerSupport [⟨"VK_LAYER_KHRONOS_validation", 1⟩] = false ∧
    CreateInstance true [⟨"VK_LAYER_KHRONOS_validation", 1⟩] true true = some 1 ∧
    checkValidationLayerSupport [⟨"VK_LAYER_LUNARG_api_dump", 2⟩] = true ∧
    CreateInstance true [⟨"VK_LAYER_LUNARG_api_dump", 2⟩] true true = none ∧
    (∀ layerProp : List VkLayerProperties,
      checkValidationLayerSupport layerProp = true ↔
        ∀ layerName, layerName ∈ validationLayers →
          ∃ layer, layer ∈ layerProp ∧ layerName ≠ layer.layerName) := by
  refine ⟨by decide, by decide, by decide, by decide, ?_⟩
  intro layerProp
  exact checkValidationLayerSupport_loop_iff layerProp validationLayers

end vg
